import Mathlib

/-!
Shallow embedding of `scripts/generate_site.py` (static landing-page
generator).  The Python module works on loosely-typed JSON dictionaries;
here each dictionary is modelled by a structure whose fields are all
`Option`-typed (`none` = key absent), Python truthiness of an optional
string is modelled by `truthy`, and Python `a or b` fallback chains by
`pyOrS`.  All builders are translated line by line from the source.
-/

namespace GenSite

/-! ## Text utilities -/

/-- Python `str.strip()` whitespace test (ASCII whitespace as used by the
configs handled here). -/
def isPySpace (c : Char) : Bool :=
  c = ' ' || c = '\t' || c = '\n' || c = '\r' || c = '\x0b' || c = '\x0c'

/-- Python `str.strip()`. -/
def pyStrip (s : String) : String :=
  ⟨((s.data.dropWhile isPySpace).reverse.dropWhile isPySpace).reverse⟩

/-- Python `str.lower()` restricted to ASCII letters (the generator's
slug inputs; non-ASCII letters are unchanged, matching CPython on the
characters exercised here). -/
def pyLowerChar (c : Char) : Char :=
  if 'A' ≤ c && c ≤ 'Z' then Char.ofNat (c.toNat + 32) else c

/-- One character of `html.escape` (quote=True). -/
def escapeChar (c : Char) : List Char :=
  if c = '&' then "&amp;".data
  else if c = '<' then "&lt;".data
  else if c = '>' then "&gt;".data
  else if c = Char.ofNat 34 then "&quot;".data
  else if c = Char.ofNat 39 then "&#x27;".data
  else [c]

/-- `html.escape` as used by the generator (`from html import escape`). -/
def escape (s : String) : String := ⟨s.data.flatMap escapeChar⟩

/-- Python truthiness of an optional string (`None` and `""` are falsy). -/
def truthy : Option String → Bool
  | none => false
  | some s => s ≠ ""

/-- Python `a or b` where `a` is an optional string and `b` a string. -/
def pyOrS : Option String → String → String
  | some s, b => if s = "" then b else s
  | none, b => b

/-- Python `"".join(l)`. -/
def concatAll (l : List String) : String := l.foldr (· ++ ·) ""

/-- Worker for Python `str.split(sep)` on character lists (non-overlapping,
left to right). -/
def splitSepsGo (sep : List Char) : List Char → List Char → List (List Char)
  | [], acc => [acc.reverse]
  | c :: rest, acc =>
    if sep.isPrefixOf (c :: rest) then
      acc.reverse :: splitSepsGo sep (rest.drop (sep.length - 1)) []
    else
      splitSepsGo sep rest (c :: acc)
termination_by l _ => l.length
decreasing_by
  · simp only [List.length_cons, List.length_drop]
    omega
  · simp only [List.length_cons]
    omega

/-- Python `s.split(sep)`. -/
def pySplit (s sep : String) : List String :=
  (splitSepsGo sep.data s.data []).map fun l => ⟨l⟩

/-- Python `s.replace("\n", "<br>")`. -/
def replaceNl (s : String) : String :=
  ⟨s.data.flatMap fun c => if c = '\n' then "<br>".data else [c]⟩

/-- Loop body of `html_paragraphs`: strip the block, skip it when blank,
otherwise escape it, turn single newlines into `<br>` and wrap in `<p>`. -/
def paraBlock (block : String) : Option String :=
  let b := pyStrip block
  if b = "" then none else some ("<p>" ++ replaceNl (escape b) ++ "</p>")

/-- `html_paragraphs` from the source: split on blank lines, drop blank
blocks, escape, turn single newlines into `<br>`, wrap in `<p>`. -/
def html_paragraphs (text : String) : String :=
  concatAll ((pySplit text "\n\n").filterMap paraBlock)

/-- `html_list` from the source: always emits the `<ul>` wrapper; blank
items are skipped. -/
def html_list (items : List String) (cls : String := "") : String :=
  let class_attr := if cls ≠ "" then " class=\"" ++ cls ++ "\"" else ""
  let lis := concatAll ((items.filter fun item => pyStrip item != "").map
    fun item => "<li>" ++ escape item ++ "</li>")
  "<ul" ++ class_attr ++ ">" ++ lis ++ "</ul>"

/-! ## slugify -/

/-- Characters kept by the slug regex `[a-z0-9]`. -/
def slugChar (c : Char) : Bool :=
  ('a' ≤ c && c ≤ 'z') || ('0' ≤ c && c ≤ '9')

/-- `re.sub(r"[^a-z0-9]+", "-", ·)` before run-collapsing: map every
non-alphanumeric character to a hyphen. -/
def dashify (l : List Char) : List Char :=
  l.map fun c => if slugChar c then c else '-'

/-- Collapse every run of adjacent hyphens to a single hyphen (the
combined effect of the two `re.sub` calls in `slugify`). -/
def dedupDash : List Char → List Char
  | [] => []
  | [c] => [c]
  | a :: b :: rest =>
    if a = '-' && b = '-' then dedupDash (b :: rest)
    else a :: dedupDash (b :: rest)

/-- Python `str.strip("-")`. -/
def stripDash (l : List Char) : List Char :=
  ((l.dropWhile (· = '-')).reverse.dropWhile (· = '-')).reverse

/-- `slugify` from the source. -/
def slugify (value : String) (default : String := "site") : String :=
  let v := (pyStrip value).data.map pyLowerChar
  let core := stripDash (dedupDash (dashify v))
  if core.isEmpty then default else ⟨core⟩

/-! ## Substring search used to state containment properties -/

/-- Executable infix test on character lists. -/
def isInfixL (n : List Char) : List Char → Bool
  | [] => n.isEmpty
  | c :: rest => n.isPrefixOf (c :: rest) || isInfixL n rest

/-- `hasSub needle hay` holds when `needle` occurs contiguously in `hay`. -/
def hasSub (needle hay : String) : Bool := isInfixL needle.data hay.data

/-! ## Data model

Each JSON sub-dictionary of the configuration becomes a structure whose
fields are all optional (`none` = key absent).  A present-but-falsy value
is `some ""` (or `some []`), which Python distinguishes from an absent
key; dictionary truthiness (`if not data`) becomes `isEmptyDict`. -/

structure CtaButton where
  text : Option String := none
  link : Option String := none
deriving DecidableEq

structure HeroData where
  headline : Option String := none
  subheadline : Option String := none
  primary_cta : Option CtaButton := none
  secondary_cta : Option CtaButton := none
  bullet_points : Option (List String) := none
deriving DecidableEq

structure AboutData where
  title : Option String := none
  content : Option String := none
  highlights : Option (List String) := none
deriving DecidableEq

structure ServiceItem where
  name : Option String := none
  description : Option String := none
  icon : Option String := none
deriving DecidableEq

structure ServicesData where
  title : Option String := none
  description : Option String := none
  items : Option (List ServiceItem) := none
deriving DecidableEq

structure TestimonialItem where
  quote : Option String := none
  name : Option String := none
  role : Option String := none
deriving DecidableEq

structure TestimonialsData where
  title : Option String := none
  items : Option (List TestimonialItem) := none
deriving DecidableEq

structure CtaData where
  headline : Option String := none
  subheadline : Option String := none
  button : Option CtaButton := none
deriving DecidableEq

structure FaqItem where
  question : Option String := none
  answer : Option String := none
deriving DecidableEq

structure FaqData where
  title : Option String := none
  items : Option (List FaqItem) := none
deriving DecidableEq

structure SocialItem where
  platform : Option String := none
  url : Option String := none
deriving DecidableEq

structure ContactData where
  title : Option String := none
  description : Option String := none
  phone : Option String := none
  whatsapp : Option String := none
  email : Option String := none
  address : Option String := none
  maps_link : Option String := none
  social : Option (List SocialItem) := none
  hours : Option (List String) := none
deriving DecidableEq

structure FooterLink where
  url : Option String := none
  label : Option String := none
deriving DecidableEq

structure FooterData where
  text : Option String := none
  links : Option (List FooterLink) := none
deriving DecidableEq

structure SiteData where
  name : Option String := none
  slug : Option String := none
  logo : Option String := none
  tagline : Option String := none
  primary_color : Option String := none
  secondary_color : Option String := none
  accent_color : Option String := none
  background_color : Option String := none
  text_color : Option String := none
deriving DecidableEq

structure SeoData where
  title : Option String := none
  description : Option String := none
deriving DecidableEq

structure Config where
  site : Option SiteData := none
  seo : Option SeoData := none
  slug : Option String := none
  tagline : Option String := none
  hero : Option HeroData := none
  about : Option AboutData := none
  services : Option ServicesData := none
  testimonials : Option TestimonialsData := none
  faq : Option FaqData := none
  cta : Option CtaData := none
  contact : Option ContactData := none
  footer : Option FooterData := none
deriving DecidableEq

/-- Python `not data` for the `about` dictionary. -/
def AboutData.isEmptyDict (d : AboutData) : Bool :=
  d.title.isNone && d.content.isNone && d.highlights.isNone

/-- Python `not data` for the `services` dictionary. -/
def ServicesData.isEmptyDict (d : ServicesData) : Bool :=
  d.title.isNone && d.description.isNone && d.items.isNone

/-- Python `not data` for the `testimonials` dictionary. -/
def TestimonialsData.isEmptyDict (d : TestimonialsData) : Bool :=
  d.title.isNone && d.items.isNone

/-- Python `not data` for the `cta` dictionary. -/
def CtaData.isEmptyDict (d : CtaData) : Bool :=
  d.headline.isNone && d.subheadline.isNone && d.button.isNone

/-- Python `not data` for the `faq` dictionary. -/
def FaqData.isEmptyDict (d : FaqData) : Bool :=
  d.title.isNone && d.items.isNone

/-- Python `not data` for the `contact` dictionary. -/
def ContactData.isEmptyDict (d : ContactData) : Bool :=
  d.title.isNone && d.description.isNone && d.phone.isNone &&
  d.whatsapp.isNone && d.email.isNone && d.address.isNone &&
  d.maps_link.isNone && d.social.isNone && d.hours.isNone

/-- Python `if data` (truthiness) for the `footer` dictionary. -/
def FooterData.isEmptyDict (d : FooterData) : Bool :=
  d.text.isNone && d.links.isNone

/-! ## Section builders -/

/-- Nav entry: `{"id": ..., "label": ...}`. -/
structure NavEntry where
  id : String
  label : String
deriving DecidableEq

/-- `logo_html` of `build_nav`. -/
def navBrandHtml (logo : Option String) (site_name : String) : String :=
  if truthy logo then
    "<img src=\"" ++ escape (logo.getD "") ++ "\" alt=\"" ++
      escape site_name ++ "\" class=\"brand-logo\">"
  else
    "<span class=\"brand-name\">" ++ escape site_name ++ "</span>"

/-- `build_nav` from the source. -/
def build_nav (sections : List NavEntry) (site_name : String)
    (logo : Option String) : String :=
  let links := concatAll (sections.map fun s =>
    "<a href=\"#" ++ escape s.id ++ "\">" ++ escape s.label ++ "</a>")
  let logo_html := navBrandHtml logo site_name
  "\n    <nav class=\"top-nav\">\n        <div class=\"brand\">\n            " ++
    logo_html ++
    "\n        </div>\n        <div class=\"nav-links\">\n            " ++
    links ++ "\n        </div>\n    </nav>\n    "

/-- `data.get("headline", site.get("tagline", site.get("name", "")))`. -/
def heroHeadlineRaw (data : HeroData) (site : SiteData) : String :=
  match data.headline with
  | some h => h
  | none =>
    match site.tagline with
    | some t => t
    | none => site.name.getD ""

/-- `hero_logo` of `build_hero`. -/
def heroLogoHtml (logo : Option String) (name : String) : String :=
  if truthy logo then
    "<img src=\"" ++ escape (logo.getD "") ++ "\" alt=\"" ++
      escape name ++ "\" class=\"hero-logo\">"
  else ""

/-- A hero call-to-action button (primary/secondary share the markup up to
the CSS class). -/
def heroButton (cls : String) (cta : CtaButton) : String :=
  if truthy cta.text && truthy cta.link then
    "<a class=\"btn " ++ cls ++ "\" href=\"" ++ escape (cta.link.getD "") ++
      "\" target=\"_blank\" rel=\"noopener\">" ++ escape (cta.text.getD "") ++ "</a>"
  else ""

/-- `build_hero` from the source. -/
def build_hero (data : HeroData) (site : SiteData) (logo : Option String) : String :=
  let headline := escape (heroHeadlineRaw data site)
  let subheadline := escape (data.subheadline.getD "")
  let primary_cta := data.primary_cta.getD {}
  let secondary_cta := data.secondary_cta.getD {}
  let bullet_points := data.bullet_points.getD []
  let bullet_html :=
    if bullet_points ≠ [] then html_list bullet_points "hero-bullets" else ""
  let hero_logo := heroLogoHtml logo (site.name.getD "")
  let button_html := heroButton "primary" primary_cta ++ heroButton "secondary" secondary_cta
  "\n    <header class=\"hero\" id=\"inicio\">\n        <div class=\"hero-content\">\n            " ++
    hero_logo ++ "\n            <h1>" ++ headline ++
    "</h1>\n            <p class=\"subheadline\">" ++ subheadline ++
    "</p>\n            <div class=\"hero-actions\">" ++ button_html ++
    "</div>\n            " ++ bullet_html ++
    "\n        </div>\n    </header>\n    "

/-- `build_about` from the source. -/
def build_about (data : AboutData) : String :=
  if data.isEmptyDict then "" else
  let title := escape (data.title.getD "Sobre")
  let content := data.content.getD ""
  let highlights := data.highlights.getD []
  let highlights_html :=
    if highlights ≠ [] then html_list highlights "highlight-list" else ""
  "\n    <section id=\"sobre\" class=\"section about\">\n        <div class=\"section-header\">\n            <span class=\"eyebrow\">Quem Somos</span>\n            <h2>" ++
    title ++
    "</h2>\n        </div>\n        <div class=\"section-body\">\n            " ++
    html_paragraphs content ++ "\n            " ++ highlights_html ++
    "\n        </div>\n    </section>\n    "

/-- One service card (loop body of `build_services`). -/
def serviceCard (item : ServiceItem) : String :=
  let name := escape (item.name.getD "")
  let summary := escape (item.description.getD "")
  let icon := if truthy item.icon then escape (item.icon.getD "") else ""
  let icon_html :=
    if icon ≠ "" then "<div class=\"service-icon\">" ++ icon ++ "</div>" else ""
  "\n            <article class=\"service-card\">\n                " ++
    icon_html ++ "\n                <h3>" ++ name ++
    "</h3>\n                <p>" ++ summary ++
    "</p>\n            </article>\n            "

/-- `build_services` from the source. -/
def build_services (data : ServicesData) : String :=
  if data.isEmptyDict then "" else
  let title := escape (data.title.getD "Serviços")
  let description := escape (data.description.getD "")
  let items := data.items.getD []
  let cards_html := concatAll (items.map serviceCard)
  "\n    <section id=\"servicos\" class=\"section services\">\n        <div class=\"section-header\">\n            <span class=\"eyebrow\">O que fazemos</span>\n            <h2>" ++
    title ++ "</h2>\n            <p>" ++ description ++
    "</p>\n        </div>\n        <div class=\"service-grid\">" ++ cards_html ++
    "</div>\n    </section>\n    "

/-- One testimonial card (loop body of `build_testimonials`). -/
def testimonialCard (item : TestimonialItem) : String :=
  let quote := escape (item.quote.getD "")
  let name := escape (item.name.getD "")
  let role := escape (item.role.getD "")
  "\n            <article class=\"testimonial\">\n                <p class=\"quote\">“" ++
    quote ++ "”</p>\n                <p class=\"author\">" ++ name ++
    "<span>" ++ role ++
    "</span></p>\n            </article>\n            "

/-- `build_testimonials` from the source. -/
def build_testimonials (data : TestimonialsData) : String :=
  if data.isEmptyDict then "" else
  let title := escape (data.title.getD "Clientes satisfeitos")
  let items := data.items.getD []
  let cards_html := concatAll (items.map testimonialCard)
  "\n    <section id=\"depoimentos\" class=\"section testimonials\">\n        <div class=\"section-header\">\n            <span class=\"eyebrow\">Depoimentos</span>\n            <h2>" ++
    title ++ "</h2>\n        </div>\n        <div class=\"testimonial-grid\">" ++
    cards_html ++ "</div>\n    </section>\n    "

/-- `button_html` of `build_cta` (rendered only when both text and link
are truthy). -/
def ctaButtonHtml (button : CtaButton) : String :=
  if truthy button.text && truthy button.link then
    "<a class=\"btn accent\" href=\"" ++ escape (button.link.getD "") ++
      "\" target=\"_blank\" rel=\"noopener\">" ++ escape (button.text.getD "") ++ "</a>"
  else ""

/-- `build_cta` from the source. -/
def build_cta (data : CtaData) : String :=
  if data.isEmptyDict then "" else
  let headline := escape (data.headline.getD "Pronto para começar?")
  let subheadline := escape (data.subheadline.getD "Vamos conversar sobre seu projeto.")
  let button_html := ctaButtonHtml (data.button.getD {})
  "\n    <section id=\"cta\" class=\"section cta\">\n        <div class=\"cta-box\">\n            <h2>" ++
    headline ++ "</h2>\n            <p>" ++ subheadline ++
    "</p>\n            " ++ button_html ++
    "\n        </div>\n    </section>\n    "

/-- One FAQ disclosure widget (loop body of `build_faq`). -/
def faqItemHtml (item : FaqItem) : String :=
  let question := escape (item.question.getD "")
  let answer := html_paragraphs (item.answer.getD "")
  "\n            <details class=\"faq-item\">\n                <summary>" ++
    question ++ "</summary>\n                <div class=\"faq-answer\">" ++
    answer ++ "</div>\n            </details>\n            "

/-- `build_faq` from the source. -/
def build_faq (data : FaqData) : String :=
  if data.isEmptyDict then "" else
  let title := escape (data.title.getD "Perguntas Frequentes")
  let items := data.items.getD []
  let accordions_html := concatAll (items.map faqItemHtml)
  "\n    <section id=\"faq\" class=\"section faq\">\n        <div class=\"section-header\">\n            <span class=\"eyebrow\">Dúvidas</span>\n            <h2>" ++
    title ++ "</h2>\n        </div>\n        <div class=\"faq-list\">" ++
    accordions_html ++ "</div>\n    </section>\n    "

/-- One contact social link (loop body of the `social_links` loop). -/
def socialLinkHtml (item : SocialItem) : String :=
  "<a href=\"" ++ escape (item.url.getD "") ++
    "\" target=\"_blank\" rel=\"noopener\">" ++ escape (item.platform.getD "") ++ "</a>"

/-- Keep condition of the `social_links` loop (`continue` on falsy
platform or missing/falsy url). -/
def socialKeep (item : SocialItem) : Bool :=
  escape (item.platform.getD "") != "" && truthy item.url

/-- `escape(data.get(k, "")) if data.get(k) else ""` — the guarded escaped
contact fields (phone, whatsapp, email, address). -/
def contactField (o : Option String) : String :=
  if truthy o then escape (o.getD "") else ""

/-- `phone_html` of `build_contact`. -/
def phoneHtmlOf (phone : String) : String :=
  if phone ≠ "" then "<a href=\"tel:" ++ phone ++ "\">" ++ phone ++ "</a>" else ""

/-- `whatsapp_html` of `build_contact`. -/
def whatsappHtmlOf (whatsapp : String) : String :=
  if whatsapp ≠ "" then
    "<a href=\"https://wa.me/" ++ whatsapp ++ "\" target=\"_blank\" rel=\"noopener\">WhatsApp</a>"
  else ""

/-- `email_html` of `build_contact`. -/
def emailHtmlOf (email : String) : String :=
  if email ≠ "" then "<a href=\"mailto:" ++ email ++ "\">" ++ email ++ "</a>" else ""

/-- `contact_lines` of `build_contact`: the generator keeps only pairs
with a truthy value. -/
def contactLines (data : ContactData) : String :=
  concatAll
    ((([("Telefone", phoneHtmlOf (contactField data.phone)),
        ("WhatsApp", whatsappHtmlOf (contactField data.whatsapp)),
        ("E-mail", emailHtmlOf (contactField data.email)),
        ("Endereço", contactField data.address)].filter
          fun p => p.2 != "").map
      fun p => "<li><strong>" ++ p.1 ++ ":</strong> " ++ p.2 ++ "</li>"))

/-- `hours_html` of `build_contact`. -/
def hoursHtmlOf (hours : List String) : String :=
  if hours ≠ [] then "<div class=\"contact-hours\">" ++ html_list hours ++ "</div>" else ""

/-- `social_html` of `build_contact`. -/
def socialHtmlOf (social : List SocialItem) : String :=
  let social_links := (social.filter socialKeep).map socialLinkHtml
  if social_links ≠ [] then
    "<div class=\"contact-social\">" ++ concatAll social_links ++ "</div>"
  else ""

/-- `map_embed` of `build_contact`. -/
def mapEmbedOf (maps_link : Option String) : String :=
  if truthy maps_link then
    "<iframe src=\"" ++ escape (maps_link.getD "") ++
      "\" loading=\"lazy\" allowfullscreen referrerpolicy=\"no-referrer-when-downgrade\"></iframe>"
  else ""

/-- `build_contact` from the source. -/
def build_contact (data : ContactData) : String :=
  if data.isEmptyDict then "" else
  let title := escape (data.title.getD "Fale Conosco")
  let description := escape (data.description.getD "")
  let contact_lines := contactLines data
  let hours_html := hoursHtmlOf (data.hours.getD [])
  let social_html := socialHtmlOf (data.social.getD [])
  let map_embed := mapEmbedOf data.maps_link
  "\n    <section id=\"contato\" class=\"section contact\">\n        <div class=\"section-header\">\n            <span class=\"eyebrow\">Contato</span>\n            <h2>" ++
    title ++ "</h2>\n            <p>" ++ description ++
    "</p>\n        </div>\n        <div class=\"contact-grid\">\n            <div class=\"contact-card\">\n                <ul class=\"contact-list\">" ++
    contact_lines ++ "</ul>\n                " ++ hours_html ++
    "\n                " ++ social_html ++
    "\n            </div>\n            <div class=\"contact-map\">" ++ map_embed ++
    "</div>\n        </div>\n    </section>\n    "

/-- One footer link (loop body of the `link_html` generator). -/
def footerLinkHtml (link : FooterLink) : String :=
  "<a href=\"" ++ escape (link.url.getD "#") ++
    "\" target=\"_blank\" rel=\"noopener\">" ++ escape (link.label.getD "") ++ "</a>"

/-- Keep condition of the footer-link generator
(`if link.get("url") and link.get("label")`). -/
def footerLinkKeep (link : FooterLink) : Bool :=
  truthy link.url && truthy link.label

/-- `footer_text` of `build_footer`: the user text when truthy, otherwise
the default copyright line naming the site. -/
def footerTextOf (text : Option String) (site : SiteData) : String :=
  let default_text :=
    "© " ++ escape (site.name.getD "Sua Empresa") ++ ". Todos os direitos reservados."
  match text with
  | some t => if t = "" then default_text else escape t
  | none => default_text

/-- `build_footer` from the source. -/
def build_footer (data : FooterData) (site : SiteData) : String :=
  let text := if data.isEmptyDict then none else data.text
  let footer_text := footerTextOf text site
  let links := if data.isEmptyDict then none else data.links
  let link_html := concatAll (((links.getD []).filter footerLinkKeep).map footerLinkHtml)
  "\n    <footer class=\"site-footer\">\n        <div class=\"footer-text\">" ++
    footer_text ++ "</div>\n        <div class=\"footer-links\">" ++
    link_html ++ "</div>\n    </footer>\n    "

/-! ## Document assembler -/

/-- `title = seo.get("title") or site.get("name") or "Site de Demonstração"`. -/
def docTitle (config : Config) : String :=
  let site := config.site.getD {}
  let seo := config.seo.getD {}
  pyOrS seo.title (pyOrS site.name "Site de Demonstração")

/-- `description = seo.get("description") or config.get("tagline") or ...`
(note: the source reads `tagline` from the top-level config object). -/
def docDescription (config : Config) : String :=
  let seo := config.seo.getD {}
  pyOrS seo.description (pyOrS config.tagline "Criação de sites profissionais.")

/-- `build_document` from the source.  The five theme colors are embedded
verbatim (no `escape`), exactly as in the Python f-string. -/
def build_document (config : Config) (generated_sections : List (String × String))
    (nav_sections : List NavEntry) (logo_path : Option String)
    (footer_html : String) : String :=
  let site := config.site.getD {}
  let title := docTitle config
  let description := docDescription config
  let primary_color := site.primary_color.getD "#1b6ef3"
  let secondary_color := site.secondary_color.getD "#123a9a"
  let accent_color := site.accent_color.getD "#f97316"
  let background_color := site.background_color.getD "#f7f9fc"
  let text_color := site.text_color.getD "#1f2933"
  let nav_html := build_nav nav_sections (site.name.getD "Sua Empresa") logo_path
  let body_sections := concatAll (generated_sections.map Prod.snd)
  let style_path := "style.css"
  "<!DOCTYPE html>\n<html lang=\"pt-BR\">\n<head>\n    <meta charset=\"utf-8\">\n    <meta name=\"viewport\" content=\"width=device-width, initial-scale=1\">\n    <title>" ++
    escape title ++ "</title>\n    <meta name=\"description\" content=\"" ++
    escape description ++
    "\">\n    <link rel=\"preconnect\" href=\"https://fonts.googleapis.com\">\n    <link rel=\"preconnect\" href=\"https://fonts.gstatic.com\" crossorigin>\n    <link href=\"https://fonts.googleapis.com/css2?family=Poppins:wght@300;400;500;600;700&display=swap\" rel=\"stylesheet\">\n    <link rel=\"stylesheet\" href=\"" ++
    style_path ++
    "\">\n    <style>\n        :root \x7b\n            --color-primary: " ++
    primary_color ++ ";\n            --color-secondary: " ++
    secondary_color ++ ";\n            --color-accent: " ++
    accent_color ++ ";\n            --color-background: " ++
    background_color ++ ";\n            --color-text: " ++
    text_color ++
    ";\n        \x7d\n    </style>\n</head>\n<body>\n    " ++
    nav_html ++ "\n    <main>\n        " ++ body_sections ++
    "\n    </main>\n    " ++ footer_html ++ "\n</body>\n</html>\n"

/-! ## Site orchestrator (pure part) -/

/-- `slug = config.get("slug") or site.get("slug") or slugify(site.get("name", ""))`. -/
def resolveSlug (config : Config) : String :=
  let site := config.site.getD {}
  pyOrS config.slug (pyOrS site.slug (slugify (site.name.getD "") "site"))

/-- Lines 442–476 of the source: build each optional section in canonical
order; whenever a fragment is non-empty, append it to the ordered section
list and append the matching nav entry. -/
def buildSectionsNav (config : Config) (logo : Option String) :
    List (String × String) × List NavEntry :=
  let site := config.site.getD {}
  let hero := build_hero (config.hero.getD {}) site logo
  let about_html := build_about (config.about.getD {})
  let services_html := build_services (config.services.getD {})
  let testimonials_html := build_testimonials (config.testimonials.getD {})
  let faq_html := build_faq (config.faq.getD {})
  let cta_html := build_cta (config.cta.getD {})
  let contact_html := build_contact (config.contact.getD {})
  let s0 := [("hero", hero)]
  let n0 := [NavEntry.mk "inicio" "Início"]
  let s1 := if about_html ≠ "" then s0 ++ [("about", about_html)] else s0
  let n1 := if about_html ≠ "" then n0 ++ [NavEntry.mk "sobre" "Sobre"] else n0
  let s2 := if services_html ≠ "" then s1 ++ [("services", services_html)] else s1
  let n2 := if services_html ≠ "" then n1 ++ [NavEntry.mk "servicos" "Serviços"] else n1
  let s3 := if testimonials_html ≠ "" then s2 ++ [("testimonials", testimonials_html)] else s2
  let n3 := if testimonials_html ≠ "" then n2 ++ [NavEntry.mk "depoimentos" "Depoimentos"] else n2
  let s4 := if faq_html ≠ "" then s3 ++ [("faq", faq_html)] else s3
  let n4 := if faq_html ≠ "" then n3 ++ [NavEntry.mk "faq" "FAQ"] else n3
  let s5 := if cta_html ≠ "" then s4 ++ [("cta", cta_html)] else s4
  let n5 := if cta_html ≠ "" then n4 ++ [NavEntry.mk "cta" "Começar"] else n4
  let s6 := if contact_html ≠ "" then s5 ++ [("contact", contact_html)] else s5
  let n6 := if contact_html ≠ "" then n5 ++ [NavEntry.mk "contato" "Contato"] else n5
  (s6, n6)

/-- The full document produced for a configuration and a resolved logo
asset path (composition performed by `generate_site` before writing). -/
def documentOf (config : Config) (logo : Option String) : String :=
  let sn := buildSectionsNav config logo
  build_document config sn.1 sn.2 logo
    (build_footer (config.footer.getD {}) (config.site.getD {}))

/-! ## Filesystem model for the orchestrator -/

/-- Filesystem actions performed by one generation run. -/
inductive FsEvent where
  | mkdirAll (path : String)
  | mkdirOne (path : String)
  | copyFile (src dst : String)
  | writeFile (path content : String)
deriving DecidableEq

/-- Outcome of one `generate_site` run: the filesystem actions performed,
the raised error (if any), and the returned index path. -/
structure RunResult where
  events : List FsEvent
  err : Option String
  result : Option String
deriving DecidableEq

/-- `src.name` — final component of a `/`-separated path. -/
def baseName (p : String) : String := (pySplit p "/").getLastD p

/-- Shared stylesheet template path (`TEMPLATE_DIR / "style.css"`). -/
def cssTemplatePath : String := "templates/base/style.css"

/-- `copy_logo` from the source, over an abstract file-existence oracle:
returns the filesystem actions and either the relative asset path
(`none` when no logo is configured) or the raised error. -/
def copy_logo (fsExists : String → Bool) (logo_path : Option String)
    (output_dir : String) : List FsEvent × Except String (Option String) :=
  if ¬ truthy logo_path then ([], Except.ok none)
  else
    let lp := logo_path.getD ""
    if ¬ fsExists lp then ([], Except.error ("Logo não encontrada: " ++ lp))
    else
      let assets_dir := output_dir ++ "/assets"
      ([FsEvent.mkdirOne assets_dir,
        FsEvent.copyFile lp (assets_dir ++ "/" ++ baseName lp)],
       Except.ok (some ("assets/" ++ baseName lp)))

/-- `generate_site` from the source (after `read_config`), over an abstract
file-existence oracle. -/
def generate_site (fsExists : String → Bool) (config : Config)
    (output_dir : String) : RunResult :=
  let site := config.site.getD {}
  let slug := resolveSlug config
  let site_output := output_dir ++ "/" ++ slug
  let dirEvents := [FsEvent.mkdirAll site_output,
                    FsEvent.mkdirOne (site_output ++ "/assets")]
  match copy_logo fsExists site.logo site_output with
  | (les, Except.error msg) => ⟨dirEvents ++ les, some msg, none⟩
  | (les, Except.ok logo_path) =>
    let document := documentOf config logo_path
    let index_path := site_output ++ "/index.html"
    let cssEvents :=
      if fsExists cssTemplatePath then
        [FsEvent.copyFile cssTemplatePath (site_output ++ "/style.css")]
      else []
    ⟨dirEvents ++ les ++ [FsEvent.writeFile index_path document] ++ cssEvents,
     none, some index_path⟩

/-! ## Derived measures, scrubbed inputs and claim inputs -/

/-- The four characters that must never occur raw in output derived from
escaped user text (`&` is excluded: escaped output legitimately contains
`&` inside entities). -/
def isDanger (c : Char) : Bool :=
  c = '<' || c = '>' || c = Char.ofNat 34 || c = Char.ofNat 39

/-- Number of raw dangerous characters in a string. -/
def count4 (s : String) : Nat := s.data.countP isDanger

/-- Number of newline characters in a string. -/
def countNl (s : String) : Nat := s.data.countP (· = '\n')

def scrubChar (c : Char) : Char := if isDanger c then 'x' else c

def scrubStr (s : String) : String := ⟨s.data.map scrubChar⟩

def scrubOS (o : Option String) : Option String := o.map scrubStr

def scrubLS (l : List String) : List String := l.map scrubStr

def scrubBtn (b : CtaButton) : CtaButton := ⟨scrubOS b.text, scrubOS b.link⟩

def scrubHero (d : HeroData) : HeroData :=
  ⟨scrubOS d.headline, scrubOS d.subheadline, d.primary_cta.map scrubBtn,
   d.secondary_cta.map scrubBtn, d.bullet_points.map scrubLS⟩

def scrubAbout (d : AboutData) : AboutData :=
  ⟨scrubOS d.title, scrubOS d.content, d.highlights.map scrubLS⟩

def scrubServiceItem (i : ServiceItem) : ServiceItem :=
  ⟨scrubOS i.name, scrubOS i.description, scrubOS i.icon⟩

def scrubServices (d : ServicesData) : ServicesData :=
  ⟨scrubOS d.title, scrubOS d.description, d.items.map (List.map scrubServiceItem)⟩

def scrubTestimonialItem (i : TestimonialItem) : TestimonialItem :=
  ⟨scrubOS i.quote, scrubOS i.name, scrubOS i.role⟩

def scrubTestimonials (d : TestimonialsData) : TestimonialsData :=
  ⟨scrubOS d.title, d.items.map (List.map scrubTestimonialItem)⟩

def scrubCtaData (d : CtaData) : CtaData :=
  ⟨scrubOS d.headline, scrubOS d.subheadline, d.button.map scrubBtn⟩

def scrubFaqItem (i : FaqItem) : FaqItem := ⟨scrubOS i.question, scrubOS i.answer⟩

def scrubFaq (d : FaqData) : FaqData :=
  ⟨scrubOS d.title, d.items.map (List.map scrubFaqItem)⟩

def scrubSocialItem (i : SocialItem) : SocialItem := ⟨scrubOS i.platform, scrubOS i.url⟩

def scrubContact (d : ContactData) : ContactData :=
  ⟨scrubOS d.title, scrubOS d.description, scrubOS d.phone, scrubOS d.whatsapp,
   scrubOS d.email, scrubOS d.address, scrubOS d.maps_link,
   d.social.map (List.map scrubSocialItem), d.hours.map scrubLS⟩

def scrubFooterLink (l : FooterLink) : FooterLink := ⟨scrubOS l.url, scrubOS l.label⟩

def scrubFooter (d : FooterData) : FooterData :=
  ⟨scrubOS d.text, d.links.map (List.map scrubFooterLink)⟩

def scrubSite (s : SiteData) : SiteData :=
  ⟨scrubOS s.name, scrubOS s.slug, scrubOS s.logo, scrubOS s.tagline,
   scrubOS s.primary_color, scrubOS s.secondary_color, scrubOS s.accent_color,
   scrubOS s.background_color, scrubOS s.text_color⟩

def scrubSeo (s : SeoData) : SeoData := ⟨scrubOS s.title, scrubOS s.description⟩

def scrubConfig (c : Config) : Config :=
  ⟨c.site.map scrubSite, c.seo.map scrubSeo, scrubOS c.slug, scrubOS c.tagline,
   c.hero.map scrubHero, c.about.map scrubAbout, c.services.map scrubServices,
   c.testimonials.map scrubTestimonials, c.faq.map scrubFaq, c.cta.map scrubCtaData,
   c.contact.map scrubContact, c.footer.map scrubFooter⟩

/-- Total raw dangerous characters contributed by the five theme color
values (embedded verbatim in the inline style block). -/
def themeCount (config : Config) : Nat :=
  let site := config.site.getD {}
  count4 (site.primary_color.getD "#1b6ef3") +
  count4 (site.secondary_color.getD "#123a9a") +
  count4 (site.accent_color.getD "#f97316") +
  count4 (site.background_color.getD "#f7f9fc") +
  count4 (site.text_color.getD "#1f2933")

/-- The six optional sections in canonical order: section key, anchor id,
nav label, and the rendered fragment. -/
def sectionRows (config : Config) : List ((String × String × String) × String) :=
  [(("about", "sobre", "Sobre"), build_about (config.about.getD {})),
   (("services", "servicos", "Serviços"), build_services (config.services.getD {})),
   (("testimonials", "depoimentos", "Depoimentos"),
     build_testimonials (config.testimonials.getD {})),
   (("faq", "faq", "FAQ"), build_faq (config.faq.getD {})),
   (("cta", "cta", "Começar"), build_cta (config.cta.getD {})),
   (("contact", "contato", "Contato"), build_contact (config.contact.getD {}))]

/-- Is this optional character missing or not a hyphen? -/
def notDashO : Option Char → Bool
  | some c => !(c = '-')
  | none => true

/-- Head check used by `noDD`. -/
def headOkD (x : Char) : Option Char → Bool
  | some y => !(x = '-' && y = '-')
  | none => true

/-- No two adjacent hyphens. -/
def noDD : List Char → Bool
  | [] => true
  | [_] => true
  | a :: b :: rest => !(a = '-' && b = '-') && noDD (b :: rest)

/-- `^[a-z0-9]+(-[a-z0-9]+)*$` as a Boolean predicate: non-empty, only
`[a-z0-9-]`, no leading/trailing hyphen, no `--`. -/
def slugOk (s : String) : Bool :=
  !s.data.isEmpty &&
  s.data.all (fun c => slugChar c || c = '-') &&
  notDashO s.data.head? &&
  notDashO s.data.getLast? &&
  noDD s.data

/-- A configuration whose primary theme color carries an HTML injection. -/
def cfgC1 : Config :=
  { site := some { name := some "Acme", primary_color := some "</style><script>" },
    hero := some { headline := some "Hello" } }

/-- A configuration with one optional section (about) present. -/
def cfgC2 : Config := { about := some { title := some "Sobre nós" } }

/-- Site-level tagline, no SEO description, no top-level tagline. -/
def cfgC5site : Config :=
  { site := some { name := some "Acme", tagline := some "Qualidade em primeiro lugar" } }

/-- Top-level tagline, no SEO description. -/
def cfgC5top : Config :=
  { site := some { name := some "Acme" }, tagline := some "Qualidade em primeiro lugar" }

/-- A footer link with a label but no url. -/
def footerBad : FooterData := { links := some [{ label := some "Privacidade" }] }

def cfg7a : Config :=
  { slug := some "custom", site := some { slug := some "s2", name := some "Acme" } }

def cfg7b : Config := { site := some { slug := some "s2", name := some "Acme" } }

def cfg7c : Config := { site := some { name := some "Acme Co" } }

def cfg7d : Config := {}

/-- Logo configured but absent from the filesystem. -/
def cfgC8 : Config := { site := some { name := some "Acme", logo := some "img/logo.png" } }

/-! ## Basic lemmas about the text utilities -/

theorem concatAll_cons (s : String) (l : List String) :
    concatAll (s :: l) = s ++ concatAll l := rfl

theorem isInfixL_iff (n : List Char) : ∀ l, isInfixL n l = true ↔ n <:+: l := by
  intro l
  induction l with
  | nil => simp [isInfixL, List.isEmpty_iff, List.infix_nil]
  | cons c rest ih =>
    simp [isInfixL, Bool.or_eq_true, List.isPrefixOf_iff_prefix, ih, List.infix_cons_iff]

theorem hasSub_iff (n h : String) : hasSub n h = true ↔ n.data <:+: h.data :=
  isInfixL_iff _ _

theorem hasSub_appL {n a : String} (b : String) (h : hasSub n a = true) :
    hasSub n (a ++ b) = true := by
  rw [hasSub_iff] at h ⊢
  rw [String.data_append]
  exact h.trans (List.prefix_append _ _).isInfix

theorem hasSub_appR {n b : String} (a : String) (h : hasSub n b = true) :
    hasSub n (a ++ b) = true := by
  rw [hasSub_iff] at h ⊢
  rw [String.data_append]
  exact h.trans (List.suffix_append _ _).isInfix

theorem append_eq_empty_iff (a b : String) : a ++ b = "" ↔ a = "" ∧ b = "" := by
  constructor
  · intro h
    have hd : a.data ++ b.data = [] := by
      have := String.ext_iff.mp h
      rwa [String.data_append] at this
    rcases List.append_eq_nil.mp hd with ⟨ha, hb⟩
    exact ⟨String.ext_iff.mpr ha, String.ext_iff.mpr hb⟩
  · rintro ⟨rfl, rfl⟩
    rfl

/-! ## Counting raw dangerous characters -/

theorem count4_append (a b : String) : count4 (a ++ b) = count4 a + count4 b := by
  simp [count4, String.data_append, List.countP_append]

theorem count4_concatAll (l : List String) :
    count4 (concatAll l) = (l.map count4).sum := by
  induction l with
  | nil => rfl
  | cons a t ih => simp [concatAll_cons, count4_append, ih]

theorem countP_escapeChar_danger (c : Char) : (escapeChar c).countP isDanger = 0 := by
  unfold escapeChar
  repeat' split
  · decide
  · decide
  · decide
  · decide
  · decide
  · simp_all [isDanger, List.countP_cons, List.countP_nil]

theorem countP_flatMap (p : Char → Bool) (f : Char → List Char) (l : List Char) :
    (l.flatMap f).countP p = (l.map fun c => (f c).countP p).sum := by
  induction l with
  | nil => rfl
  | cons c t ih => simp [List.flatMap_cons, List.countP_append, ih]

theorem countP_eq_sum_map (p : Char → Bool) (l : List Char) :
    l.countP p = (l.map fun c => [c].countP p).sum := by
  induction l with
  | nil => rfl
  | cons c t ih => simp [List.countP_cons, List.countP_nil, ih, Nat.add_comm]

theorem count4_escape (s : String) : count4 (escape s) = 0 := by
  simp [count4, escape, countP_flatMap, countP_escapeChar_danger]

theorem countP_escapeChar_nl (c : Char) :
    (escapeChar c).countP (· = '\n') = [c].countP (· = '\n') := by
  unfold escapeChar
  repeat' split
  all_goals simp_all

theorem countNl_escape (s : String) : countNl (escape s) = countNl s := by
  simp only [countNl, escape, countP_flatMap, countP_escapeChar_nl]
  exact (countP_eq_sum_map _ _).symm

theorem count4_replaceNl (s : String) :
    count4 (replaceNl s) = count4 s + 2 * countNl s := by
  simp only [count4, countNl, replaceNl]
  induction s.data with
  | nil => rfl
  | cons c t ih =>
    simp only [List.flatMap_cons, List.countP_append, List.countP_cons, ih]
    by_cases h : c = '\n'
    · subst h
      simp [List.countP_cons, List.countP_nil,
        show isDanger '\n' = false from by decide,
        show isDanger '<' = true from by decide,
        show isDanger '>' = true from by decide,
        show isDanger 'b' = false from by decide,
        show isDanger 'r' = false from by decide]
      omega
    · simp only [h]
      simp [List.countP_cons, List.countP_nil, h]
      by_cases hd : isDanger c = true
      · simp only [hd, if_true]
        omega
      · simp only [hd, if_false]
        omega

theorem escapeChar_ne_nil (c : Char) : escapeChar c ≠ [] := by
  unfold escapeChar
  repeat' split
  all_goals simp

theorem escape_eq_empty_iff (s : String) : escape s = "" ↔ s = "" := by
  obtain ⟨l⟩ := s
  constructor
  · intro h
    have hd : l.flatMap escapeChar = [] := String.ext_iff.mp h
    rcases l with _ | ⟨c, t⟩
    · rfl
    · exfalso
      rw [List.flatMap_cons] at hd
      rcases List.append_eq_nil.mp hd with ⟨hc, _⟩
      exact escapeChar_ne_nil c hc
  · intro h
    have hl : l = [] := String.ext_iff.mp h
    subst hl
    rfl

/-! ## Scrubbing dangerous characters from user input

`scrubStr` replaces each of the four dangerous characters by the harmless
letter `x`, preserving the string's length, its whitespace and newline
structure, and hence every branching decision of the builders.  Comparing
a document against its scrubbed counterpart isolates exactly the raw
dangerous characters that user input can inject. -/

theorem isDanger_scrubChar (c : Char) : isDanger (scrubChar c) = false := by
  unfold scrubChar
  split
  · decide
  · simp_all

theorem count4_scrubStr (s : String) : count4 (scrubStr s) = 0 := by
  simp only [count4, scrubStr, List.countP_map]
  refine List.countP_eq_zero.mpr ?_
  intro a _
  simp [Function.comp, isDanger_scrubChar]

theorem scrubStr_empty_iff (s : String) : scrubStr s = "" ↔ s = "" := by
  constructor
  · intro h
    have hm : s.data.map scrubChar = [] := String.ext_iff.mp h
    exact String.ext_iff.mpr (List.map_eq_nil_iff.mp hm)
  · intro h
    rw [h]
    rfl

theorem truthy_scrubOS (o : Option String) : truthy (scrubOS o) = truthy o := by
  cases o with
  | none => rfl
  | some s => simp [truthy, scrubOS, ne_eq, scrubStr_empty_iff]

theorem getD_scrubOS (o : Option String) (d : String) (hd : scrubStr d = d) :
    (scrubOS o).getD d = scrubStr (o.getD d) := by
  cases o <;> simp [scrubOS, hd]

theorem scrubChar_eq_nl (c : Char) : scrubChar c = '\n' ↔ c = '\n' := by
  unfold scrubChar
  split
  · rename_i h
    constructor
    · intro hx
      exact absurd hx (by decide)
    · intro hc
      subst hc
      exact absurd h (by decide)
  · exact Iff.rfl

theorem isPySpace_scrubChar (c : Char) : isPySpace (scrubChar c) = isPySpace c := by
  unfold scrubChar
  split
  · rename_i h
    simp only [isDanger, Bool.or_eq_true, decide_eq_true_eq] at h
    rcases h with ((h | h) | h) | h <;> subst h <;> decide
  · rfl

theorem countNl_scrubStr (s : String) : countNl (scrubStr s) = countNl s := by
  simp only [countNl, scrubStr, List.countP_map]
  apply List.countP_congr
  intro a _
  simp [Function.comp, decide_eq_decide, scrubChar_eq_nl]

theorem pyStrip_scrubStr (s : String) : pyStrip (scrubStr s) = scrubStr (pyStrip s) := by
  have hp : isPySpace ∘ scrubChar = isPySpace := funext isPySpace_scrubChar
  simp only [pyStrip, scrubStr]
  exact congrArg String.mk (by
    simp only [← List.map_reverse, List.dropWhile_map, hp])

theorem beq_nl_scrubChar (c : Char) : ('\n' == scrubChar c) = ('\n' == c) := by
  by_cases h : c = '\n'
  · subst h
    rfl
  · have h2 : scrubChar c ≠ '\n' := fun hc => h ((scrubChar_eq_nl c).mp hc)
    rw [show ('\n' == scrubChar c) = false from
        beq_eq_false_iff_ne.mpr fun hb => h2 hb.symm,
      show ('\n' == c) = false from beq_eq_false_iff_ne.mpr fun hb => h hb.symm]

theorem isPrefixOf_nn_map (l : List Char) :
    ['\n', '\n'].isPrefixOf (l.map scrubChar) = ['\n', '\n'].isPrefixOf l := by
  match l with
  | [] => rfl
  | [c] => simp [List.isPrefixOf]
  | c :: d :: t =>
    simp [List.isPrefixOf, beq_nl_scrubChar]

theorem splitSepsGo_map_scrub_aux : ∀ (n : Nat) (l acc : List Char), l.length ≤ n →
    splitSepsGo ['\n', '\n'] (l.map scrubChar) (acc.map scrubChar) =
      (splitSepsGo ['\n', '\n'] l acc).map (List.map scrubChar) := by
  intro n
  induction n with
  | zero =>
    intro l acc hlen
    have : l = [] := List.length_eq_zero.mp (Nat.le_zero.mp hlen)
    subst this
    simp [splitSepsGo, List.map_reverse]
  | succ n ih =>
    intro l acc hlen
    match l with
    | [] => simp [splitSepsGo, List.map_reverse]
    | c :: rest =>
      have hlen2 : rest.length ≤ n := by
        simp only [List.length_cons] at hlen
        omega
      by_cases h : ['\n', '\n'].isPrefixOf (c :: rest) = true
      · have hm : ['\n', '\n'].isPrefixOf ((c :: rest).map scrubChar) = true := by
          rw [isPrefixOf_nn_map]
          exact h
        rw [List.map_cons] at hm
        simp only [List.map_cons, splitSepsGo]
        rw [if_pos hm, if_pos h]
        have hd : (['\n', '\n'].length - 1) = 1 := rfl
        rw [hd]
        rw [show (rest.map scrubChar).drop 1 = (rest.drop 1).map scrubChar from
          (List.map_drop ..).symm]
        have hrec := ih (rest.drop 1) [] (by rw [List.length_drop]; omega)
        simp only [List.map_nil] at hrec
        rw [hrec]
        simp [List.map_cons, List.map_reverse]
      · have hm : ¬ (['\n', '\n'].isPrefixOf ((c :: rest).map scrubChar) = true) := by
          rw [isPrefixOf_nn_map]
          exact h
        rw [List.map_cons] at hm
        simp only [List.map_cons, splitSepsGo]
        rw [if_neg hm, if_neg h]
        have hrec := ih rest (c :: acc) hlen2
        simp only [List.map_cons] at hrec
        exact hrec

theorem splitSepsGo_map_scrub (l acc : List Char) :
    splitSepsGo ['\n', '\n'] (l.map scrubChar) (acc.map scrubChar) =
      (splitSepsGo ['\n', '\n'] l acc).map (List.map scrubChar) :=
  splitSepsGo_map_scrub_aux l.length l acc (Nat.le_refl _)

theorem pySplit_scrubStr (s : String) :
    pySplit (scrubStr s) "\n\n" = (pySplit s "\n\n").map scrubStr := by
  simp only [pySplit, scrubStr]
  have h := splitSepsGo_map_scrub s.data []
  simp only [List.map_nil] at h
  rw [h, List.map_map, List.map_map]
  rfl

theorem paraBlock_scrubStr (b : String) :
    (paraBlock (scrubStr b) = none ↔ paraBlock b = none) ∧
    count4 ((paraBlock (scrubStr b)).getD "") = count4 ((paraBlock b).getD "") := by
  unfold paraBlock
  rw [pyStrip_scrubStr]
  by_cases hb : pyStrip b = ""
  · rw [hb]
    simp [show scrubStr "" = "" from rfl]
  · rw [if_neg hb, if_neg fun hc => hb ((scrubStr_empty_iff _).mp hc)]
    simp [count4_append, count4_replaceNl, count4_escape, countNl_escape,
      countNl_scrubStr]

theorem count4_html_paragraphs_scrub (s : String) :
    count4 (html_paragraphs (scrubStr s)) = count4 (html_paragraphs s) := by
  unfold html_paragraphs
  rw [pySplit_scrubStr]
  generalize pySplit s "\n\n" = bs
  induction bs with
  | nil => rfl
  | cons b t ih =>
    simp only [List.map_cons, List.filterMap_cons]
    obtain ⟨hiff, hcnt⟩ := paraBlock_scrubStr b
    by_cases hpb : paraBlock b = none
    · rw [hiff.mpr hpb, hpb]
      exact ih
    · obtain ⟨y, hy⟩ := Option.ne_none_iff_exists'.mp hpb
      obtain ⟨x, hx⟩ := Option.ne_none_iff_exists'.mp fun hc => hpb (hiff.mp hc)
      rw [hx, hy]
      rw [hx, hy] at hcnt
      simp only [Option.getD_some] at hcnt
      simp only [concatAll_cons, count4_append, hcnt, ih]

theorem count4_html_list_scrub (items : List String) (cls : String) :
    count4 (html_list (scrubLS items) cls) = count4 (html_list items cls) := by
  unfold html_list scrubLS
  have hpred : ((fun item => pyStrip item != "") ∘ scrubStr) =
      (fun item : String => pyStrip item != "") := by
    funext i
    simp [Function.comp, pyStrip_scrubStr, bne, scrubStr_empty_iff]
  simp only [count4_append, List.filter_map, hpred, List.map_map]
  rw [count4_concatAll, count4_concatAll, List.map_map, List.map_map]
  have hmap : ∀ a : String,
      (count4 ∘ (fun item => "<li>" ++ escape item ++ "</li>") ∘ scrubStr) a =
        (count4 ∘ fun item => "<li>" ++ escape item ++ "</li>") a := by
    intro a
    simp [Function.comp, count4_append, count4_escape]
  rw [List.map_congr_left fun a _ => hmap a]

/-! ## Scrubbing the configuration structures -/

theorem getD_map_fix {α : Type} (f : α → α) (o : Option α) (d : α) (h : f d = d) :
    (o.map f).getD d = f (o.getD d) := by
  cases o <;> simp [h]

theorem isNone_scrubOS (o : Option String) : (scrubOS o).isNone = o.isNone := by
  cases o <;> rfl

theorem isNone_map {α β : Type} (f : α → β) (o : Option α) :
    (o.map f).isNone = o.isNone := by
  cases o <;> rfl

theorem isEmptyDict_scrubAbout (d : AboutData) :
    (scrubAbout d).isEmptyDict = d.isEmptyDict := by
  simp [scrubAbout, AboutData.isEmptyDict, isNone_scrubOS, isNone_map]

theorem isEmptyDict_scrubServices (d : ServicesData) :
    (scrubServices d).isEmptyDict = d.isEmptyDict := by
  simp [scrubServices, ServicesData.isEmptyDict, isNone_scrubOS, isNone_map]

theorem isEmptyDict_scrubTestimonials (d : TestimonialsData) :
    (scrubTestimonials d).isEmptyDict = d.isEmptyDict := by
  simp [scrubTestimonials, TestimonialsData.isEmptyDict, isNone_scrubOS, isNone_map]

theorem isEmptyDict_scrubCtaData (d : CtaData) :
    (scrubCtaData d).isEmptyDict = d.isEmptyDict := by
  simp [scrubCtaData, CtaData.isEmptyDict, isNone_scrubOS, isNone_map]

theorem isEmptyDict_scrubFaq (d : FaqData) :
    (scrubFaq d).isEmptyDict = d.isEmptyDict := by
  simp [scrubFaq, FaqData.isEmptyDict, isNone_scrubOS, isNone_map]

theorem isEmptyDict_scrubContact (d : ContactData) :
    (scrubContact d).isEmptyDict = d.isEmptyDict := by
  simp [scrubContact, ContactData.isEmptyDict, isNone_scrubOS, isNone_map]

theorem isEmptyDict_scrubFooter (d : FooterData) :
    (scrubFooter d).isEmptyDict = d.isEmptyDict := by
  simp [scrubFooter, FooterData.isEmptyDict, isNone_scrubOS, isNone_map]

theorem getD_scrubOS_empty (o : Option String) :
    (scrubOS o).getD "" = scrubStr (o.getD "") := by
  cases o <;> rfl

theorem scrubLS_eq_nil_iff (l : List String) : scrubLS l = [] ↔ l = [] := by
  simp [scrubLS, List.map_eq_nil_iff]

/-! ## Per-builder invariance of the raw-dangerous-character count

Scrubbing the dangerous characters out of every user-supplied text field
leaves each builder's output with exactly the same number of raw `<`,
`>`, `"`, `'` characters: all those fields pass through `escape`, so
they contribute none in either case. -/

theorem count4_heroButton_scrub (cls : String) (b : CtaButton) :
    count4 (heroButton cls (scrubBtn b)) = count4 (heroButton cls b) := by
  unfold heroButton scrubBtn
  simp only [truthy_scrubOS]
  by_cases h : (truthy b.text && truthy b.link) = true
  · simp [h, count4_append, count4_escape]
  · simp [h]

theorem count4_ctaButtonHtml_scrub (b : CtaButton) :
    count4 (ctaButtonHtml (scrubBtn b)) = count4 (ctaButtonHtml b) := by
  unfold ctaButtonHtml scrubBtn
  simp only [truthy_scrubOS]
  by_cases h : (truthy b.text && truthy b.link) = true
  · simp [h, count4_append, count4_escape]
  · simp [h]

theorem count4_heroLogoHtml (logo : Option String) (n n' : String) :
    count4 (heroLogoHtml logo n') = count4 (heroLogoHtml logo n) := by
  unfold heroLogoHtml
  by_cases h : truthy logo = true <;> simp [h, count4_append, count4_escape]

theorem count4_navBrandHtml (logo : Option String) (n n' : String) :
    count4 (navBrandHtml logo n') = count4 (navBrandHtml logo n) := by
  unfold navBrandHtml
  by_cases h : truthy logo = true <;> simp [h, count4_append, count4_escape]

theorem count4_build_nav_name (navs : List NavEntry) (n n' : String)
    (logo : Option String) :
    count4 (build_nav navs n' logo) = count4 (build_nav navs n logo) := by
  unfold build_nav
  simp only [count4_append]
  rw [count4_navBrandHtml logo n n']

theorem count4_build_hero_scrub (d : HeroData) (site : SiteData) (logo : Option String) :
    count4 (build_hero (scrubHero d) (scrubSite site) logo) =
      count4 (build_hero d site logo) := by
  simp only [build_hero]
  rw [show (scrubHero d).bullet_points = d.bullet_points.map scrubLS from rfl,
    getD_map_fix scrubLS d.bullet_points [] rfl,
    show (scrubHero d).primary_cta = d.primary_cta.map scrubBtn from rfl,
    getD_map_fix scrubBtn d.primary_cta {} rfl,
    show (scrubHero d).secondary_cta = d.secondary_cta.map scrubBtn from rfl,
    getD_map_fix scrubBtn d.secondary_cta {} rfl]
  by_cases hbp : d.bullet_points.getD [] = []
  · rw [if_neg (fun hc : scrubLS (d.bullet_points.getD []) ≠ [] =>
        hc ((scrubLS_eq_nil_iff _).mpr hbp)),
      if_neg (fun hc : d.bullet_points.getD [] ≠ [] => hc hbp)]
    simp only [count4_append, count4_escape]
    rw [count4_heroLogoHtml logo (site.name.getD "") ((scrubSite site).name.getD ""),
      count4_heroButton_scrub "primary" (d.primary_cta.getD {}),
      count4_heroButton_scrub "secondary" (d.secondary_cta.getD {})]
  · rw [if_pos (show scrubLS (d.bullet_points.getD []) ≠ [] from
        fun hc => hbp ((scrubLS_eq_nil_iff _).mp hc)),
      if_pos hbp]
    simp only [count4_append, count4_escape]
    rw [count4_heroLogoHtml logo (site.name.getD "") ((scrubSite site).name.getD ""),
      count4_heroButton_scrub "primary" (d.primary_cta.getD {}),
      count4_heroButton_scrub "secondary" (d.secondary_cta.getD {}),
      count4_html_list_scrub (d.bullet_points.getD []) "hero-bullets"]

theorem count4_build_about_scrub (d : AboutData) :
    count4 (build_about (scrubAbout d)) = count4 (build_about d) := by
  simp only [build_about]
  rw [isEmptyDict_scrubAbout]
  by_cases h : d.isEmptyDict = true
  · simp [h]
  · rw [if_neg h, if_neg h]
    rw [show (scrubAbout d).content = scrubOS d.content from rfl, getD_scrubOS_empty,
      show (scrubAbout d).highlights = d.highlights.map scrubLS from rfl,
      getD_map_fix scrubLS d.highlights [] rfl]
    by_cases hh : d.highlights.getD [] = []
    · rw [if_neg (fun hc : scrubLS (d.highlights.getD []) ≠ [] =>
          hc ((scrubLS_eq_nil_iff _).mpr hh)),
        if_neg (fun hc : d.highlights.getD [] ≠ [] => hc hh)]
      simp [count4_append, count4_escape, count4_html_paragraphs_scrub]
    · rw [if_pos (show scrubLS (d.highlights.getD []) ≠ [] from
          fun hc => hh ((scrubLS_eq_nil_iff _).mp hc)),
        if_pos hh]
      simp [count4_append, count4_escape, count4_html_paragraphs_scrub,
        count4_html_list_scrub]

theorem count4_serviceCard_scrub (i : ServiceItem) :
    count4 (serviceCard (scrubServiceItem i)) = count4 (serviceCard i) := by
  simp only [serviceCard, scrubServiceItem]
  simp only [truthy_scrubOS, getD_scrubOS_empty, ne_eq, escape_eq_empty_iff,
    scrubStr_empty_iff]
  by_cases hic : truthy i.icon = true
  · by_cases hraw : i.icon.getD "" = ""
    · simp [hic, hraw, count4_append, count4_escape, escape_eq_empty_iff,
        scrubStr_empty_iff]
    · simp [hic, hraw, count4_append, count4_escape, escape_eq_empty_iff,
        scrubStr_empty_iff]
  · simp [hic, count4_append, count4_escape, escape_eq_empty_iff, scrubStr_empty_iff]

theorem count4_build_services_scrub (d : ServicesData) :
    count4 (build_services (scrubServices d)) = count4 (build_services d) := by
  simp only [build_services]
  rw [isEmptyDict_scrubServices]
  by_cases h : d.isEmptyDict = true
  · simp [h]
  · rw [if_neg h, if_neg h]
    rw [show (scrubServices d).items = d.items.map (List.map scrubServiceItem) from rfl,
      getD_map_fix _ d.items [] rfl]
    simp only [count4_append, count4_escape]
    rw [count4_concatAll, count4_concatAll]
    simp only [List.map_map, Function.comp_def]
    rw [List.map_congr_left fun a _ => count4_serviceCard_scrub a]

theorem count4_testimonialCard_scrub (i : TestimonialItem) :
    count4 (testimonialCard (scrubTestimonialItem i)) = count4 (testimonialCard i) := by
  simp only [testimonialCard, scrubTestimonialItem]
  simp [count4_append, count4_escape]

theorem count4_build_testimonials_scrub (d : TestimonialsData) :
    count4 (build_testimonials (scrubTestimonials d)) = count4 (build_testimonials d) := by
  simp only [build_testimonials]
  rw [isEmptyDict_scrubTestimonials]
  by_cases h : d.isEmptyDict = true
  · simp [h]
  · rw [if_neg h, if_neg h]
    rw [show (scrubTestimonials d).items = d.items.map (List.map scrubTestimonialItem)
        from rfl,
      getD_map_fix _ d.items [] rfl]
    simp only [count4_append, count4_escape]
    rw [count4_concatAll, count4_concatAll]
    simp only [List.map_map, Function.comp_def]
    rw [List.map_congr_left fun a _ => count4_testimonialCard_scrub a]

theorem count4_build_cta_scrub (d : CtaData) :
    count4 (build_cta (scrubCtaData d)) = count4 (build_cta d) := by
  simp only [build_cta]
  rw [isEmptyDict_scrubCtaData]
  by_cases h : d.isEmptyDict = true
  · simp [h]
  · rw [if_neg h, if_neg h]
    rw [show (scrubCtaData d).button = d.button.map scrubBtn from rfl,
      getD_map_fix scrubBtn d.button {} rfl]
    simp only [count4_append, count4_escape]
    rw [count4_ctaButtonHtml_scrub (d.button.getD {})]

theorem count4_faqItemHtml_scrub (i : FaqItem) :
    count4 (faqItemHtml (scrubFaqItem i)) = count4 (faqItemHtml i) := by
  simp only [faqItemHtml, scrubFaqItem]
  simp only [getD_scrubOS_empty]
  simp [count4_append, count4_escape, count4_html_paragraphs_scrub]

theorem count4_build_faq_scrub (d : FaqData) :
    count4 (build_faq (scrubFaq d)) = count4 (build_faq d) := by
  simp only [build_faq]
  rw [isEmptyDict_scrubFaq]
  by_cases h : d.isEmptyDict = true
  · simp [h]
  · rw [if_neg h, if_neg h]
    rw [show (scrubFaq d).items = d.items.map (List.map scrubFaqItem) from rfl,
      getD_map_fix _ d.items [] rfl]
    simp only [count4_append, count4_escape]
    rw [count4_concatAll, count4_concatAll]
    simp only [List.map_map, Function.comp_def]
    rw [List.map_congr_left fun a _ => count4_faqItemHtml_scrub a]

theorem count4_contactField (o : Option String) : count4 (contactField o) = 0 := by
  unfold contactField
  by_cases h : truthy o = true <;>
    simp [h, count4_escape, show count4 "" = 0 from rfl]

theorem contactField_scrub_empty_iff (o : Option String) :
    contactField (scrubOS o) = "" ↔ contactField o = "" := by
  unfold contactField
  simp only [truthy_scrubOS, getD_scrubOS_empty]
  by_cases h : truthy o = true
  · simp [h, escape_eq_empty_iff, scrubStr_empty_iff]
  · simp [h]

theorem count4_contactField_scrub (o : Option String) :
    count4 (contactField (scrubOS o)) = count4 (contactField o) := by
  rw [count4_contactField, count4_contactField]

theorem phoneHtmlOf_empty_iff (p : String) : phoneHtmlOf p = "" ↔ p = "" := by
  unfold phoneHtmlOf
  by_cases h : p = ""
  · simp [h]
  · simp [h, append_eq_empty_iff]

theorem whatsappHtmlOf_empty_iff (p : String) : whatsappHtmlOf p = "" ↔ p = "" := by
  unfold whatsappHtmlOf
  by_cases h : p = ""
  · simp [h]
  · simp [h, append_eq_empty_iff]

theorem emailHtmlOf_empty_iff (p : String) : emailHtmlOf p = "" ↔ p = "" := by
  unfold emailHtmlOf
  by_cases h : p = ""
  · simp [h]
  · simp [h, append_eq_empty_iff]

theorem count4_phoneHtmlOf_scrub (o : Option String) :
    count4 (phoneHtmlOf (contactField (scrubOS o))) =
      count4 (phoneHtmlOf (contactField o)) := by
  unfold phoneHtmlOf
  by_cases h : contactField o = ""
  · rw [if_neg (fun hc : contactField (scrubOS o) ≠ "" =>
        hc ((contactField_scrub_empty_iff o).mpr h)),
      if_neg (fun hc : contactField o ≠ "" => hc h)]
  · rw [if_pos (show contactField (scrubOS o) ≠ "" from
        fun hc => h ((contactField_scrub_empty_iff o).mp hc)), if_pos h]
    simp [count4_append, count4_contactField]

theorem count4_whatsappHtmlOf_scrub (o : Option String) :
    count4 (whatsappHtmlOf (contactField (scrubOS o))) =
      count4 (whatsappHtmlOf (contactField o)) := by
  unfold whatsappHtmlOf
  by_cases h : contactField o = ""
  · rw [if_neg (fun hc : contactField (scrubOS o) ≠ "" =>
        hc ((contactField_scrub_empty_iff o).mpr h)),
      if_neg (fun hc : contactField o ≠ "" => hc h)]
  · rw [if_pos (show contactField (scrubOS o) ≠ "" from
        fun hc => h ((contactField_scrub_empty_iff o).mp hc)), if_pos h]
    simp [count4_append, count4_contactField]

theorem count4_emailHtmlOf_scrub (o : Option String) :
    count4 (emailHtmlOf (contactField (scrubOS o))) =
      count4 (emailHtmlOf (contactField o)) := by
  unfold emailHtmlOf
  by_cases h : contactField o = ""
  · rw [if_neg (fun hc : contactField (scrubOS o) ≠ "" =>
        hc ((contactField_scrub_empty_iff o).mpr h)),
      if_neg (fun hc : contactField o ≠ "" => hc h)]
  · rw [if_pos (show contactField (scrubOS o) ≠ "" from
        fun hc => h ((contactField_scrub_empty_iff o).mp hc)), if_pos h]
    simp [count4_append, count4_contactField]

theorem count4_contactLines_scrub (d : ContactData) :
    count4 (contactLines (scrubContact d)) = count4 (contactLines d) := by
  unfold contactLines
  rw [show (scrubContact d).phone = scrubOS d.phone from rfl,
    show (scrubContact d).whatsapp = scrubOS d.whatsapp from rfl,
    show (scrubContact d).email = scrubOS d.email from rfl,
    show (scrubContact d).address = scrubOS d.address from rfl]
  have cph := propext ((phoneHtmlOf_empty_iff _).trans
    ((contactField_scrub_empty_iff d.phone).trans (phoneHtmlOf_empty_iff _).symm))
  have cwa := propext ((whatsappHtmlOf_empty_iff _).trans
    ((contactField_scrub_empty_iff d.whatsapp).trans (whatsappHtmlOf_empty_iff _).symm))
  have cem := propext ((emailHtmlOf_empty_iff _).trans
    ((contactField_scrub_empty_iff d.email).trans (emailHtmlOf_empty_iff _).symm))
  have cad := propext (contactField_scrub_empty_iff d.address)
  simp only [List.filter_cons, List.filter_nil, bne_iff_ne, ne_eq, cph, cwa, cem, cad]
  by_cases h1 : phoneHtmlOf (contactField d.phone) = "" <;>
    by_cases h2 : whatsappHtmlOf (contactField d.whatsapp) = "" <;>
      by_cases h3 : emailHtmlOf (contactField d.email) = "" <;>
        by_cases h4 : contactField d.address = "" <;>
          simp [h1, h2, h3, h4, concatAll_cons, count4_append,
            count4_phoneHtmlOf_scrub, count4_whatsappHtmlOf_scrub,
            count4_emailHtmlOf_scrub, count4_contactField]

theorem socialKeep_scrub (i : SocialItem) :
    socialKeep (scrubSocialItem i) = socialKeep i := by
  unfold socialKeep scrubSocialItem
  simp only [truthy_scrubOS, getD_scrubOS_empty]
  have hb : (escape (scrubStr (i.platform.getD "")) != "") =
      (escape (i.platform.getD "") != "") := by
    by_cases h : i.platform.getD "" = ""
    · rw [h]
      rfl
    · have hx1 : escape (scrubStr (i.platform.getD "")) ≠ "" := fun hc =>
        h ((scrubStr_empty_iff _).mp ((escape_eq_empty_iff _).mp hc))
      have hx2 : escape (i.platform.getD "") ≠ "" := fun hc =>
        h ((escape_eq_empty_iff _).mp hc)
      rw [show (escape (scrubStr (i.platform.getD "")) != "") = true from
          bne_iff_ne.mpr hx1,
        show (escape (i.platform.getD "") != "") = true from bne_iff_ne.mpr hx2]
  rw [hb]

theorem count4_socialLinkHtml_scrub (i : SocialItem) :
    count4 (socialLinkHtml (scrubSocialItem i)) = count4 (socialLinkHtml i) := by
  unfold socialLinkHtml scrubSocialItem
  simp [count4_append, count4_escape]

theorem count4_socialHtmlOf_scrub (social : List SocialItem) :
    count4 (socialHtmlOf (social.map scrubSocialItem)) = count4 (socialHtmlOf social) := by
  simp only [socialHtmlOf]
  rw [List.filter_map]
  rw [show (socialKeep ∘ scrubSocialItem) = socialKeep from funext socialKeep_scrub]
  by_cases hf : social.filter socialKeep = []
  · rw [hf]
    rfl
  · rw [if_pos (show ((social.filter socialKeep).map scrubSocialItem).map socialLinkHtml
          ≠ [] from by
        simp only [ne_eq, List.map_eq_nil_iff]
        exact hf),
      if_pos (show (social.filter socialKeep).map socialLinkHtml ≠ [] from by
        simp only [ne_eq, List.map_eq_nil_iff]
        exact hf)]
    simp only [count4_append]
    rw [count4_concatAll, count4_concatAll]
    simp only [List.map_map, Function.comp_def]
    rw [List.map_congr_left fun a _ => count4_socialLinkHtml_scrub a]

theorem count4_hoursHtmlOf_scrub (hours : List String) :
    count4 (hoursHtmlOf (scrubLS hours)) = count4 (hoursHtmlOf hours) := by
  unfold hoursHtmlOf
  by_cases h : hours = []
  · rw [h]
    rfl
  · rw [if_pos (show scrubLS hours ≠ [] from
        fun hc => h ((scrubLS_eq_nil_iff _).mp hc)), if_pos h]
    simp only [count4_append]
    rw [count4_html_list_scrub hours ""]

theorem count4_mapEmbedOf_scrub (o : Option String) :
    count4 (mapEmbedOf (scrubOS o)) = count4 (mapEmbedOf o) := by
  unfold mapEmbedOf
  simp only [truthy_scrubOS]
  by_cases h : truthy o = true <;> simp [h, count4_append, count4_escape]

theorem count4_build_contact_scrub (d : ContactData) :
    count4 (build_contact (scrubContact d)) = count4 (build_contact d) := by
  simp only [build_contact]
  rw [isEmptyDict_scrubContact]
  by_cases h : d.isEmptyDict = true
  · simp [h]
  · rw [if_neg h, if_neg h]
    rw [show (scrubContact d).hours = d.hours.map scrubLS from rfl,
      getD_map_fix scrubLS d.hours [] rfl,
      show (scrubContact d).social = d.social.map (List.map scrubSocialItem) from rfl,
      getD_map_fix _ d.social [] rfl,
      show (scrubContact d).maps_link = scrubOS d.maps_link from rfl]
    simp only [count4_append, count4_escape]
    rw [count4_contactLines_scrub, count4_hoursHtmlOf_scrub, count4_socialHtmlOf_scrub,
      count4_mapEmbedOf_scrub]

theorem count4_footerTextOf (text : Option String) (site : SiteData) :
    count4 (footerTextOf text site) = 0 := by
  unfold footerTextOf
  cases text with
  | none =>
    simp [count4_append, count4_escape, show count4 "© " = 0 from rfl,
      show count4 ". Todos os direitos reservados." = 0 from rfl]
  | some t =>
    by_cases h : t = "" <;>
      simp [h, count4_append, count4_escape, show count4 "© " = 0 from rfl,
        show count4 ". Todos os direitos reservados." = 0 from rfl]

theorem footerLinkKeep_scrub (l : FooterLink) :
    footerLinkKeep (scrubFooterLink l) = footerLinkKeep l := by
  unfold footerLinkKeep scrubFooterLink
  simp [truthy_scrubOS]

theorem count4_footerLinkHtml_scrub (l : FooterLink) :
    count4 (footerLinkHtml (scrubFooterLink l)) = count4 (footerLinkHtml l) := by
  unfold footerLinkHtml scrubFooterLink
  simp [count4_append, count4_escape]

theorem count4_build_footer_scrub (d : FooterData) (site : SiteData) :
    count4 (build_footer (scrubFooter d) (scrubSite site)) =
      count4 (build_footer d site) := by
  simp only [build_footer]
  rw [isEmptyDict_scrubFooter]
  by_cases h : d.isEmptyDict = true
  · rw [if_pos h, if_pos h, if_pos h, if_pos h]
    simp [count4_append, count4_footerTextOf]
  · rw [if_neg h, if_neg h, if_neg h, if_neg h]
    rw [show (scrubFooter d).links = d.links.map (List.map scrubFooterLink) from rfl,
      getD_map_fix _ d.links [] rfl,
      show (scrubFooter d).text = scrubOS d.text from rfl]
    rw [List.filter_map,
      show (footerLinkKeep ∘ scrubFooterLink) = footerLinkKeep from
        funext footerLinkKeep_scrub]
    simp only [count4_append, count4_footerTextOf]
    rw [count4_concatAll, count4_concatAll]
    simp only [List.map_map, Function.comp_def]
    rw [List.map_congr_left fun a _ => count4_footerLinkHtml_scrub a]

/-! ## Emptiness of optional section fragments -/

theorem build_about_empty_iff (d : AboutData) :
    build_about d = "" ↔ d.isEmptyDict = true := by
  simp only [build_about]
  by_cases h : d.isEmptyDict = true
  · simp [h]
  · rw [if_neg h]
    simp [h, append_eq_empty_iff]

theorem build_services_empty_iff (d : ServicesData) :
    build_services d = "" ↔ d.isEmptyDict = true := by
  simp only [build_services]
  by_cases h : d.isEmptyDict = true
  · simp [h]
  · rw [if_neg h]
    simp [h, append_eq_empty_iff]

theorem build_testimonials_empty_iff (d : TestimonialsData) :
    build_testimonials d = "" ↔ d.isEmptyDict = true := by
  simp only [build_testimonials]
  by_cases h : d.isEmptyDict = true
  · simp [h]
  · rw [if_neg h]
    simp [h, append_eq_empty_iff]

theorem build_cta_empty_iff (d : CtaData) :
    build_cta d = "" ↔ d.isEmptyDict = true := by
  simp only [build_cta]
  by_cases h : d.isEmptyDict = true
  · simp [h]
  · rw [if_neg h]
    simp [h, append_eq_empty_iff]

theorem build_faq_empty_iff (d : FaqData) :
    build_faq d = "" ↔ d.isEmptyDict = true := by
  simp only [build_faq]
  by_cases h : d.isEmptyDict = true
  · simp [h]
  · rw [if_neg h]
    simp [h, append_eq_empty_iff]

theorem build_contact_empty_iff (d : ContactData) :
    build_contact d = "" ↔ d.isEmptyDict = true := by
  simp only [build_contact]
  by_cases h : d.isEmptyDict = true
  · simp [h]
  · rw [if_neg h]
    simp [h, append_eq_empty_iff]

/-! ## Scrubbing commutes with the orchestrator's section selection -/

theorem getD_scrubConfig_site (c : Config) :
    (scrubConfig c).site.getD {} = scrubSite (c.site.getD {}) := by
  rw [show (scrubConfig c).site = c.site.map scrubSite from rfl,
    getD_map_fix scrubSite c.site {} rfl]

theorem getD_scrubConfig_hero (c : Config) :
    (scrubConfig c).hero.getD {} = scrubHero (c.hero.getD {}) := by
  rw [show (scrubConfig c).hero = c.hero.map scrubHero from rfl,
    getD_map_fix scrubHero c.hero {} rfl]

theorem getD_scrubConfig_about (c : Config) :
    (scrubConfig c).about.getD {} = scrubAbout (c.about.getD {}) := by
  rw [show (scrubConfig c).about = c.about.map scrubAbout from rfl,
    getD_map_fix scrubAbout c.about {} rfl]

theorem getD_scrubConfig_services (c : Config) :
    (scrubConfig c).services.getD {} = scrubServices (c.services.getD {}) := by
  rw [show (scrubConfig c).services = c.services.map scrubServices from rfl,
    getD_map_fix scrubServices c.services {} rfl]

theorem getD_scrubConfig_testimonials (c : Config) :
    (scrubConfig c).testimonials.getD {} = scrubTestimonials (c.testimonials.getD {}) := by
  rw [show (scrubConfig c).testimonials = c.testimonials.map scrubTestimonials from rfl,
    getD_map_fix scrubTestimonials c.testimonials {} rfl]

theorem getD_scrubConfig_faq (c : Config) :
    (scrubConfig c).faq.getD {} = scrubFaq (c.faq.getD {}) := by
  rw [show (scrubConfig c).faq = c.faq.map scrubFaq from rfl,
    getD_map_fix scrubFaq c.faq {} rfl]

theorem getD_scrubConfig_cta (c : Config) :
    (scrubConfig c).cta.getD {} = scrubCtaData (c.cta.getD {}) := by
  rw [show (scrubConfig c).cta = c.cta.map scrubCtaData from rfl,
    getD_map_fix scrubCtaData c.cta {} rfl]

theorem getD_scrubConfig_contact (c : Config) :
    (scrubConfig c).contact.getD {} = scrubContact (c.contact.getD {}) := by
  rw [show (scrubConfig c).contact = c.contact.map scrubContact from rfl,
    getD_map_fix scrubContact c.contact {} rfl]

theorem getD_scrubConfig_footer (c : Config) :
    (scrubConfig c).footer.getD {} = scrubFooter (c.footer.getD {}) := by
  rw [show (scrubConfig c).footer = c.footer.map scrubFooter from rfl,
    getD_map_fix scrubFooter c.footer {} rfl]

theorem buildSectionsNav_scrub (c : Config) (logo : Option String) :
    (buildSectionsNav (scrubConfig c) logo).2 = (buildSectionsNav c logo).2 ∧
    count4 (concatAll ((buildSectionsNav (scrubConfig c) logo).1.map Prod.snd)) =
      count4 (concatAll ((buildSectionsNav c logo).1.map Prod.snd)) := by
  have ca : (build_about (scrubAbout (c.about.getD {})) = "") =
      (build_about (c.about.getD {}) = "") :=
    propext ((build_about_empty_iff _).trans
      (((by rw [isEmptyDict_scrubAbout]) :
          (scrubAbout (c.about.getD {})).isEmptyDict = true ↔
            (c.about.getD {}).isEmptyDict = true).trans
        (build_about_empty_iff _).symm))
  have cs : (build_services (scrubServices (c.services.getD {})) = "") =
      (build_services (c.services.getD {}) = "") :=
    propext ((build_services_empty_iff _).trans
      (((by rw [isEmptyDict_scrubServices]) :
          (scrubServices (c.services.getD {})).isEmptyDict = true ↔
            (c.services.getD {}).isEmptyDict = true).trans
        (build_services_empty_iff _).symm))
  have ct : (build_testimonials (scrubTestimonials (c.testimonials.getD {})) = "") =
      (build_testimonials (c.testimonials.getD {}) = "") :=
    propext ((build_testimonials_empty_iff _).trans
      (((by rw [isEmptyDict_scrubTestimonials]) :
          (scrubTestimonials (c.testimonials.getD {})).isEmptyDict = true ↔
            (c.testimonials.getD {}).isEmptyDict = true).trans
        (build_testimonials_empty_iff _).symm))
  have cq : (build_faq (scrubFaq (c.faq.getD {})) = "") =
      (build_faq (c.faq.getD {}) = "") :=
    propext ((build_faq_empty_iff _).trans
      (((by rw [isEmptyDict_scrubFaq]) :
          (scrubFaq (c.faq.getD {})).isEmptyDict = true ↔
            (c.faq.getD {}).isEmptyDict = true).trans
        (build_faq_empty_iff _).symm))
  have cc : (build_cta (scrubCtaData (c.cta.getD {})) = "") =
      (build_cta (c.cta.getD {}) = "") :=
    propext ((build_cta_empty_iff _).trans
      (((by rw [isEmptyDict_scrubCtaData]) :
          (scrubCtaData (c.cta.getD {})).isEmptyDict = true ↔
            (c.cta.getD {}).isEmptyDict = true).trans
        (build_cta_empty_iff _).symm))
  have cn : (build_contact (scrubContact (c.contact.getD {})) = "") =
      (build_contact (c.contact.getD {}) = "") :=
    propext ((build_contact_empty_iff _).trans
      (((by rw [isEmptyDict_scrubContact]) :
          (scrubContact (c.contact.getD {})).isEmptyDict = true ↔
            (c.contact.getD {}).isEmptyDict = true).trans
        (build_contact_empty_iff _).symm))
  simp only [buildSectionsNav, getD_scrubConfig_site, getD_scrubConfig_hero,
    getD_scrubConfig_about, getD_scrubConfig_services, getD_scrubConfig_testimonials,
    getD_scrubConfig_faq, getD_scrubConfig_cta, getD_scrubConfig_contact,
    ne_eq, ca, cs, ct, cq, cc, cn]
  by_cases h1 : build_about (c.about.getD {}) = "" <;>
    by_cases h2 : build_services (c.services.getD {}) = "" <;>
      by_cases h3 : build_testimonials (c.testimonials.getD {}) = "" <;>
        by_cases h4 : build_faq (c.faq.getD {}) = "" <;>
          by_cases h5 : build_cta (c.cta.getD {}) = "" <;>
            by_cases h6 : build_contact (c.contact.getD {}) = "" <;>
              simp [h1, h2, h3, h4, h5, h6, concatAll_cons, count4_append,
                count4_build_hero_scrub, count4_build_about_scrub,
                count4_build_services_scrub, count4_build_testimonials_scrub,
                count4_build_faq_scrub, count4_build_cta_scrub,
                count4_build_contact_scrub]

theorem count4_documentOf_scrub (c : Config) (logo : Option String) :
    count4 (documentOf c logo) =
      count4 (documentOf (scrubConfig c) logo) + themeCount c := by
  obtain ⟨hnav, hbody⟩ := buildSectionsNav_scrub c logo
  simp only [documentOf, build_document]
  rw [hnav, getD_scrubConfig_site, getD_scrubConfig_footer]
  rw [show (scrubSite (c.site.getD {})).primary_color =
      scrubOS (c.site.getD {}).primary_color from rfl,
    getD_scrubOS _ "#1b6ef3" rfl,
    show (scrubSite (c.site.getD {})).secondary_color =
      scrubOS (c.site.getD {}).secondary_color from rfl,
    getD_scrubOS _ "#123a9a" rfl,
    show (scrubSite (c.site.getD {})).accent_color =
      scrubOS (c.site.getD {}).accent_color from rfl,
    getD_scrubOS _ "#f97316" rfl,
    show (scrubSite (c.site.getD {})).background_color =
      scrubOS (c.site.getD {}).background_color from rfl,
    getD_scrubOS _ "#f7f9fc" rfl,
    show (scrubSite (c.site.getD {})).text_color =
      scrubOS (c.site.getD {}).text_color from rfl,
    getD_scrubOS _ "#1f2933" rfl]
  simp only [count4_append, count4_escape, count4_scrubStr]
  rw [count4_build_nav_name ((buildSectionsNav c logo).2)
      ((c.site.getD {}).name.getD "Sua Empresa")
      ((scrubSite (c.site.getD {})).name.getD "Sua Empresa") logo,
    count4_build_footer_scrub, hbody]
  simp only [themeCount]
  omega

/-! ## Nav/sections lockstep -/

theorem buildSectionsNav_eq (c : Config) (logo : Option String) :
    buildSectionsNav c logo =
      (("hero", build_hero (c.hero.getD {}) (c.site.getD {}) logo) ::
         ((sectionRows c).filter fun r => r.2 != "").map (fun r => (r.1.1, r.2)),
       NavEntry.mk "inicio" "Início" ::
         ((sectionRows c).filter fun r => r.2 != "").map fun r =>
           NavEntry.mk r.1.2.1 r.1.2.2) := by
  simp only [buildSectionsNav, sectionRows, List.filter_cons, List.filter_nil,
    bne_iff_ne, ne_eq]
  by_cases h1 : build_about (c.about.getD {}) = "" <;>
    by_cases h2 : build_services (c.services.getD {}) = "" <;>
      by_cases h3 : build_testimonials (c.testimonials.getD {}) = "" <;>
        by_cases h4 : build_faq (c.faq.getD {}) = "" <;>
          by_cases h5 : build_cta (c.cta.getD {}) = "" <;>
            by_cases h6 : build_contact (c.contact.getD {}) = "" <;>
              simp [h1, h2, h3, h4, h5, h6]

theorem build_hero_anchor (d : HeroData) (site : SiteData) (logo : Option String) :
    hasSub "id=\"inicio\"" (build_hero d site logo) = true := by
  simp only [build_hero]
  repeat' apply hasSub_appL
  decide

theorem build_about_anchor (d : AboutData) (h : build_about d ≠ "") :
    hasSub "id=\"sobre\"" (build_about d) = true := by
  have hne : ¬ d.isEmptyDict = true := fun hc => h ((build_about_empty_iff d).mpr hc)
  simp only [build_about]
  rw [if_neg hne]
  repeat' apply hasSub_appL
  decide

theorem build_services_anchor (d : ServicesData) (h : build_services d ≠ "") :
    hasSub "id=\"servicos\"" (build_services d) = true := by
  have hne : ¬ d.isEmptyDict = true := fun hc => h ((build_services_empty_iff d).mpr hc)
  simp only [build_services]
  rw [if_neg hne]
  repeat' apply hasSub_appL
  decide

theorem build_testimonials_anchor (d : TestimonialsData) (h : build_testimonials d ≠ "") :
    hasSub "id=\"depoimentos\"" (build_testimonials d) = true := by
  have hne : ¬ d.isEmptyDict = true := fun hc =>
    h ((build_testimonials_empty_iff d).mpr hc)
  simp only [build_testimonials]
  rw [if_neg hne]
  repeat' apply hasSub_appL
  decide

theorem build_faq_anchor (d : FaqData) (h : build_faq d ≠ "") :
    hasSub "id=\"faq\"" (build_faq d) = true := by
  have hne : ¬ d.isEmptyDict = true := fun hc => h ((build_faq_empty_iff d).mpr hc)
  simp only [build_faq]
  rw [if_neg hne]
  repeat' apply hasSub_appL
  decide

theorem build_cta_anchor (d : CtaData) (h : build_cta d ≠ "") :
    hasSub "id=\"cta\"" (build_cta d) = true := by
  have hne : ¬ d.isEmptyDict = true := fun hc => h ((build_cta_empty_iff d).mpr hc)
  simp only [build_cta]
  rw [if_neg hne]
  repeat' apply hasSub_appL
  decide

theorem build_contact_anchor (d : ContactData) (h : build_contact d ≠ "") :
    hasSub "id=\"contato\"" (build_contact d) = true := by
  have hne : ¬ d.isEmptyDict = true := fun hc => h ((build_contact_empty_iff d).mpr hc)
  simp only [build_contact]
  rw [if_neg hne]
  repeat' apply hasSub_appL
  decide

/-! ## The slug regex property -/

theorem noDD_cons (x : Char) (xs : List Char) :
    noDD (x :: xs) = (headOkD x xs.head? && noDD xs) := by
  cases xs <;> rfl

theorem mem_dedupDash (l : List Char) : ∀ x ∈ dedupDash l, x ∈ l := by
  induction l using dedupDash.induct with
  | case1 => simp [dedupDash]
  | case2 c => simp [dedupDash]
  | case3 a b rest h ih =>
    intro x hx
    rw [dedupDash, if_pos h] at hx
    exact List.mem_cons_of_mem a (ih x hx)
  | case4 a b rest h ih =>
    intro x hx
    rw [dedupDash, if_neg h] at hx
    rcases List.mem_cons.mp hx with rfl | hx2
    · exact List.mem_cons_self x _
    · exact List.mem_cons_of_mem a (ih x hx2)

theorem head_dedupDash (l : List Char) : (dedupDash l).head? = l.head? := by
  induction l using dedupDash.induct with
  | case1 => rfl
  | case2 c => rfl
  | case3 a b rest h ih =>
    rw [dedupDash, if_pos h, ih]
    simp only [List.head?_cons]
    obtain ⟨ha, hb⟩ := Bool.and_eq_true _ _ |>.mp h
    rw [decide_eq_true_eq] at ha hb
    rw [ha, hb]
  | case4 a b rest h ih =>
    rw [dedupDash, if_neg h]
    rfl

theorem noDD_dedupDash (l : List Char) : noDD (dedupDash l) = true := by
  induction l using dedupDash.induct with
  | case1 => rfl
  | case2 c => rfl
  | case3 a b rest h ih =>
    rw [dedupDash, if_pos h]
    exact ih
  | case4 a b rest h ih =>
    rw [dedupDash, if_neg h, noDD_cons, head_dedupDash]
    simp only [List.head?_cons, headOkD, Bool.and_eq_true]
    refine ⟨?_, ih⟩
    simp only [Bool.not_eq_true']
    exact Bool.not_eq_true _ ▸ (by simpa using h)

theorem noDD_append_right (xs ys : List Char) (h : noDD (xs ++ ys) = true) :
    noDD ys = true := by
  induction xs with
  | nil => exact h
  | cons x xs ih =>
    rw [List.cons_append, noDD_cons] at h
    exact ih (Bool.and_eq_true _ _ |>.mp h).2

theorem noDD_append_left (xs ys : List Char) (h : noDD (xs ++ ys) = true) :
    noDD xs = true := by
  induction xs with
  | nil => rfl
  | cons x xs ih =>
    rw [List.cons_append, noDD_cons] at h
    obtain ⟨h1, h2⟩ := Bool.and_eq_true _ _ |>.mp h
    rw [noDD_cons]
    refine Bool.and_eq_true _ _ |>.mpr ⟨?_, ih h2⟩
    cases xs with
    | nil => rfl
    | cons z zs => simpa using h1

theorem noDD_infix {l₁ l₂ : List Char} (hinf : l₁ <:+: l₂) (h : noDD l₂ = true) :
    noDD l₁ = true := by
  obtain ⟨s, t, heq⟩ := hinf
  subst heq
  have h1 := noDD_append_right s (l₁ ++ t) (by rwa [List.append_assoc] at h)
  exact noDD_append_left l₁ t h1

theorem head_dropWhile_not (p : Char → Bool) (l : List Char) :
    ∀ c, (l.dropWhile p).head? = some c → p c = false := by
  induction l with
  | nil =>
    intro c hc
    simp [List.dropWhile] at hc
  | cons x xs ih =>
    intro c hc
    rw [List.dropWhile_cons] at hc
    by_cases hx : p x = true
    · rw [if_pos hx] at hc
      exact ih c hc
    · rw [if_neg hx] at hc
      simp only [List.head?_cons, Option.some.injEq] at hc
      subst hc
      exact Bool.not_eq_true _ ▸ hx

theorem head_of_prefix {l₁ l₂ : List Char} (h : l₁ <+: l₂) (hne : l₁ ≠ []) :
    l₁.head? = l₂.head? := by
  obtain ⟨t, rfl⟩ := h
  cases l₁ with
  | nil => exact absurd rfl hne
  | cons x xs => rfl

theorem stripDash_pre (l : List Char) :
    stripDash l <+: l.dropWhile (· = '-') := by
  have hs : (l.dropWhile (· = '-')).reverse.dropWhile (· = '-') <:+
      (l.dropWhile (· = '-')).reverse := List.dropWhile_suffix _
  have hs2 : (((l.dropWhile (· = '-')).reverse.dropWhile (· = '-')).reverse).reverse <:+
      (l.dropWhile (· = '-')).reverse := by
    rwa [List.reverse_reverse]
  exact List.reverse_suffix.mp hs2

theorem stripDash_infix (l : List Char) : stripDash l <:+: l :=
  (stripDash_pre l).isInfix.trans (List.dropWhile_suffix _).isInfix

theorem mem_dashify (w : List Char) :
    ∀ x ∈ dashify w, (slugChar x || x = '-') = true := by
  intro x hx
  simp only [dashify, List.mem_map] at hx
  obtain ⟨c, _, rfl⟩ := hx
  by_cases h : slugChar c = true
  · simp [h]
  · simp [h]

theorem slugify_ok (v d : String) : slugOk (slugify v d) = true ∨ slugify v d = d := by
  simp only [slugify]
  by_cases hc : (stripDash (dedupDash (dashify ((pyStrip v).data.map pyLowerChar)))).isEmpty = true
  · right
    rw [if_pos hc]
  · left
    rw [if_neg hc]
    have hcne : stripDash (dedupDash (dashify ((pyStrip v).data.map pyLowerChar))) ≠ [] := by
      intro h
      exact hc (by rw [h]; rfl)
    have hinf := stripDash_infix (dedupDash (dashify ((pyStrip v).data.map pyLowerChar)))
    have h_all : (stripDash (dedupDash (dashify ((pyStrip v).data.map pyLowerChar)))).all
        (fun c => slugChar c || c = '-') = true := by
      rw [List.all_eq_true]
      intro x hx
      have hx2 : x ∈ dedupDash (dashify ((pyStrip v).data.map pyLowerChar)) :=
        hinf.mem hx
      exact mem_dashify _ x (mem_dedupDash _ x hx2)
    have h_head : notDashO
        (stripDash (dedupDash (dashify ((pyStrip v).data.map pyLowerChar)))).head? = true := by
      cases hh : (stripDash (dedupDash (dashify ((pyStrip v).data.map pyLowerChar)))).head? with
      | none => rfl
      | some c =>
        have hpref := stripDash_pre (dedupDash (dashify ((pyStrip v).data.map pyLowerChar)))
        have heq := head_of_prefix hpref hcne
        rw [hh] at heq
        have hnd := head_dropWhile_not (· = '-') _ c heq.symm
        simp only [notDashO]
        simpa using hnd
    have h_last : notDashO
        (stripDash (dedupDash (dashify ((pyStrip v).data.map pyLowerChar)))).getLast? = true := by
      rw [show stripDash (dedupDash (dashify ((pyStrip v).data.map pyLowerChar))) =
          (((dedupDash (dashify ((pyStrip v).data.map pyLowerChar))).dropWhile
              (· = '-')).reverse.dropWhile (· = '-')).reverse from rfl,
        List.getLast?_reverse]
      cases hh : (((dedupDash (dashify ((pyStrip v).data.map pyLowerChar))).dropWhile
          (· = '-')).reverse.dropWhile (· = '-')).head? with
      | none => rfl
      | some c =>
        have hnd := head_dropWhile_not (· = '-') _ c hh
        simp only [notDashO]
        simpa using hnd
    have h_noDD : noDD (stripDash (dedupDash (dashify ((pyStrip v).data.map pyLowerChar))))
        = true := noDD_infix hinf (noDD_dedupDash _)
    simp only [slugOk, Bool.and_eq_true]
    refine ⟨⟨⟨⟨?_, h_all⟩, h_head⟩, h_last⟩, h_noDD⟩
    simpa using hcne

/-! ## Helper lemmas for the claims -/

theorem filter_self_idem {α : Type} (p : α → Bool) (l : List α) :
    (l.filter p).filter p = l.filter p := by
  rw [List.filter_filter]
  exact List.filter_congr fun a _ => Bool.and_self _

theorem pyOrS_falsy (o : Option String) (b : String) (h : truthy o = false) :
    pyOrS o b = b := by
  cases o with
  | none => rfl
  | some s =>
    have hs : s = "" := by simpa [truthy] using h
    subst hs
    rfl

theorem pyOrS_truthy (s b : String) (h : s ≠ "") : pyOrS (some s) b = s := by
  simp [pyOrS, h]

/-! ## Claim-specific concrete configurations -/

set_option maxRecDepth 20000

/-! ## Claims -/

/-- C1, counterexample: the five theme colors are embedded verbatim in the
inline style block, so a `primary_color` of `"</style><script>"` puts a raw
`<script>` into the rendered document (and not its escaped form), refuting
the claim that every user-supplied scalar — including theme values — is
HTML-escaped. -/
theorem C1_counterexample :
    hasSub "<script>" (documentOf cfgC1 none) = true ∧
    hasSub "&lt;script&gt;" (documentOf cfgC1 none) = false := by
  constructor
  · decide
  · decide

/-- C1, amended: every user-supplied scalar value except the five theme
color values is HTML-escaped; the theme colors are embedded verbatim.
Formally: the number of raw `<`, `>`, `"`, `'` characters in the rendered
document equals that of the document rendered from the configuration with
all dangerous characters scrubbed out of every user text field, plus
exactly the dangerous characters carried by the five theme color values;
and escaping never leaves a raw dangerous character. -/
theorem C1_amended_theorem :
    (∀ (config : Config) (logo : Option String),
      count4 (documentOf config logo) =
        count4 (documentOf (scrubConfig config) logo) + themeCount config) ∧
    (∀ s, count4 (escape s) = 0) ∧
    (∀ s, count4 (scrubStr s) = 0) :=
  ⟨count4_documentOf_scrub, count4_escape, count4_scrubStr⟩

/-- C2: nav entries and rendered sections stay in lockstep.  The orchestrator
produces exactly the hero section plus the optional sections whose fragment
is non-empty, in canonical order, with the navigation list filtered by the
same condition; every non-empty fragment contains its anchor id (the hero
always contains `id="inicio"`); and a section configuration that is absent
or an empty mapping yields an empty fragment, hence neither a section entry
nor a nav entry. -/
theorem C2_theorem (config : Config) (logo : Option String) :
    buildSectionsNav config logo =
      (("hero", build_hero (config.hero.getD {}) (config.site.getD {}) logo) ::
         ((sectionRows config).filter fun r => r.2 != "").map (fun r => (r.1.1, r.2)),
       NavEntry.mk "inicio" "Início" ::
         ((sectionRows config).filter fun r => r.2 != "").map fun r =>
           NavEntry.mk r.1.2.1 r.1.2.2) ∧
    hasSub "id=\"inicio\"" (build_hero (config.hero.getD {}) (config.site.getD {}) logo)
      = true ∧
    (∀ r ∈ sectionRows config, r.2 ≠ "" →
      hasSub ("id=\"" ++ r.1.2.1 ++ "\"") r.2 = true) ∧
    ((config.about = none ∨ config.about = some {}) →
      build_about (config.about.getD {}) = "") ∧
    ((config.services = none ∨ config.services = some {}) →
      build_services (config.services.getD {}) = "") ∧
    ((config.testimonials = none ∨ config.testimonials = some {}) →
      build_testimonials (config.testimonials.getD {}) = "") ∧
    ((config.faq = none ∨ config.faq = some {}) →
      build_faq (config.faq.getD {}) = "") ∧
    ((config.cta = none ∨ config.cta = some {}) →
      build_cta (config.cta.getD {}) = "") ∧
    ((config.contact = none ∨ config.contact = some {}) →
      build_contact (config.contact.getD {}) = "") := by
  refine ⟨buildSectionsNav_eq config logo, build_hero_anchor _ _ _, ?_, ?_, ?_, ?_, ?_,
    ?_, ?_⟩
  · intro r hr
    simp only [sectionRows, List.mem_cons, List.not_mem_nil, or_false] at hr
    rcases hr with rfl | rfl | rfl | rfl | rfl | rfl
    · exact fun h => build_about_anchor _ h
    · exact fun h => build_services_anchor _ h
    · exact fun h => build_testimonials_anchor _ h
    · exact fun h => build_faq_anchor _ h
    · exact fun h => build_cta_anchor _ h
    · exact fun h => build_contact_anchor _ h
  · rintro (h | h) <;> rw [h] <;> rfl
  · rintro (h | h) <;> rw [h] <;> rfl
  · rintro (h | h) <;> rw [h] <;> rfl
  · rintro (h | h) <;> rw [h] <;> rfl
  · rintro (h | h) <;> rw [h] <;> rfl
  · rintro (h | h) <;> rw [h] <;> rfl

/-- Witness for C2 at a concrete configuration: the about section is
present and carries its anchor; the absent services section renders
nothing. -/
theorem C2_witness :
    hasSub "id=\"sobre\"" (build_about (cfgC2.about.getD {})) = true ∧
    build_services (cfgC2.services.getD {}) = "" := by
  have h := C2_theorem cfgC2 none
  refine ⟨?_, h.2.2.2.2.1 (Or.inl rfl)⟩
  exact h.2.2.1 (("about", "sobre", "Sobre"), build_about (cfgC2.about.getD {}))
    (by simp [sectionRows]) (by decide)

/-- C3, counterexample: `slugify "Café & Bar!!"` returns `"caf-bar"`, not
the claimed `"cafe-bar"` — the accented `é` is not transliterated; it is
collapsed into the hyphen run by the `[^a-z0-9]+` substitution. -/
theorem C3_counterexample :
    slugify "Café & Bar!!" "site" = "caf-bar" ∧
    slugify "Café & Bar!!" "site" ≠ "cafe-bar" := by
  constructor
  · decide
  · decide

/-- C3, amended: slugify lower-cases, collapses every run of
non-alphanumeric characters (accented letters included) to a single
hyphen, trims hyphens, and returns the default when the result is empty;
`slugify "Café & Bar!!"` is `"caf-bar"`, and for every input the output
matches `^[a-z0-9]+(-[a-z0-9]+)*$` or equals the default. -/
theorem C3_amended_theorem :
    slugify "Café & Bar!!" "site" = "caf-bar" ∧
    (∀ v d, slugOk (slugify v d) = true ∨ slugify v d = d) ∧
    (∀ d, slugify "" d = d) :=
  ⟨by decide, slugify_ok, fun _ => rfl⟩

/-- C4, counterexample: a list of blank items does not render an empty
fragment — `html_list` always emits the `<ul>` wrapper. -/
theorem C4_counterexample :
    html_list [" "] "" = "<ul></ul>" ∧ html_list [" "] "" ≠ "" := by
  constructor
  · decide
  · decide

/-- C4, amended: the list renderer skips blank/whitespace-only entries
(the output is invariant under pre-filtering them away), but it always
emits the wrapping `<ul>` element, producing an empty `<ul></ul>` when no
non-blank items remain. -/
theorem C4_amended_theorem :
    (∀ (items : List String) (cls : String),
      html_list items cls = html_list (items.filter fun i => pyStrip i != "") cls) ∧
    html_list [" ", "\t"] "x" = "<ul class=\"x\"></ul>" := by
  constructor
  · intro items cls
    simp only [html_list, filter_self_idem]
  · decide

/-- C5: the title chain is SEO title → site name → hard-coded default, as
claimed; but the description chain reads the fallback tagline from the
top-level configuration object, not from the site object: with a tagline
stored under `site` (where `build_hero` reads it) the description falls to
the hard-coded default, while a top-level tagline is used. -/
theorem C5_code_eval :
    docDescription cfgC5site = "Criação de sites profissionais." ∧
    docDescription cfgC5top = "Qualidade em primeiro lugar" ∧
    docDescription { seo := some { description := some "D" } } = "D" ∧
    docTitle { seo := some { title := some "SEO" },
               site := some { name := some "Acme" } } = "SEO" ∧
    docTitle { site := some { name := some "Acme" } } = "Acme" ∧
    docTitle {} = "Site de Demonstração" := by
  refine ⟨rfl, rfl, rfl, rfl, rfl, rfl⟩

/-- C6, counterexample: a footer link lacking a url is dropped entirely
(the footer renders as if the link were not there), not rendered with
empty strings as the claim states. -/
theorem C6_counterexample :
    build_footer footerBad {} = build_footer { links := some [] } {} ∧
    hasSub "Privacidade" (build_footer footerBad {}) = false := by
  constructor
  · decide
  · decide

/-- C6, amended: service/testimonial/FAQ items iterate in config order
with one rendered fragment per item, and an item with every field missing
still renders (with empty strings inside its markup); footer links and
contact social links missing their url/label/platform are skipped
entirely instead. -/
theorem C6_amended_theorem :
    (∀ items : List ServiceItem, (items.map serviceCard).length = items.length) ∧
    (∀ (items : List ServiceItem) (i : Nat),
      (items.map serviceCard)[i]? = (items[i]?).map serviceCard) ∧
    (∀ items : List TestimonialItem, (items.map testimonialCard).length = items.length) ∧
    (∀ items : List FaqItem, (items.map faqItemHtml).length = items.length) ∧
    hasSub "<h3></h3>" (serviceCard {}) = true ∧
    hasSub "<p></p>" (serviceCard {}) = true ∧
    hasSub "<span></span>" (testimonialCard {}) = true ∧
    hasSub "<summary></summary>" (faqItemHtml {}) = true ∧
    (∀ (text : Option String) (links : List FooterLink) (site : SiteData),
      build_footer ⟨text, some links⟩ site =
        build_footer ⟨text, some (links.filter footerLinkKeep)⟩ site) ∧
    (∀ social : List SocialItem,
      socialHtmlOf social = socialHtmlOf (social.filter socialKeep)) := by
  refine ⟨fun items => List.length_map items _, fun items i => List.getElem?_map _ items i,
    fun items => List.length_map items _, fun items => List.length_map items _,
    by decide, by decide, by decide, by decide, ?_, ?_⟩
  · intro text links site
    simp only [build_footer, FooterData.isEmptyDict]
    simp [filter_self_idem]
  · intro social
    simp only [socialHtmlOf, filter_self_idem]

/-- C7: the output slug is the truthy top-level slug, else the truthy
site-level slug, else the slugified site name, which is the literal
`"site"` when the name is absent or empty. -/
theorem C7_theorem (config : Config) :
    (∀ s, config.slug = some s → s ≠ "" → resolveSlug config = s) ∧
    (truthy config.slug = false → ∀ t, (config.site.getD {}).slug = some t → t ≠ "" →
      resolveSlug config = t) ∧
    (truthy config.slug = false → truthy (config.site.getD {}).slug = false →
      resolveSlug config = slugify ((config.site.getD {}).name.getD "") "site") ∧
    (truthy config.slug = false → truthy (config.site.getD {}).slug = false →
      (config.site.getD {}).name.getD "" = "" → resolveSlug config = "site") := by
  refine ⟨?_, ?_, ?_, ?_⟩
  · intro s hs hne
    simp only [resolveSlug]
    rw [hs, pyOrS_truthy _ _ hne]
  · intro h1 t ht hne
    simp only [resolveSlug]
    rw [pyOrS_falsy _ _ h1, ht, pyOrS_truthy _ _ hne]
  · intro h1 h2
    simp only [resolveSlug]
    rw [pyOrS_falsy _ _ h1, pyOrS_falsy _ _ h2]
  · intro h1 h2 h3
    simp only [resolveSlug]
    rw [pyOrS_falsy _ _ h1, pyOrS_falsy _ _ h2, h3]
    rfl

/-- Witness for C7: each step of the fallback chain at a concrete
configuration. -/
theorem C7_witness :
    resolveSlug cfg7a = "custom" ∧ resolveSlug cfg7b = "s2" ∧
    resolveSlug cfg7c = slugify "Acme Co" "site" ∧ resolveSlug cfg7d = "site" := by
  refine ⟨(C7_theorem cfg7a).1 "custom" rfl (by decide),
    (C7_theorem cfg7b).2.1 (by decide) "s2" rfl (by decide), ?_,
    (C7_theorem cfg7d).2.2.2 (by decide) (by decide) (by decide)⟩
  exact (C7_theorem cfg7c).2.2.1 (by decide) (by decide)

/-- C8: a run errors exactly when a logo path is configured (truthy) and
the file-existence oracle rejects it; on error, the run has performed only
the two directory creations — in particular no `index.html` write — and
returns no path; with no logo configured, `copy_logo` returns `none` and
the run does not error. -/
theorem C8_theorem (fs : String → Bool) (config : Config) (out : String) :
    ((generate_site fs config out).err.isSome = true ↔
      (truthy (config.site.getD {}).logo = true ∧
        fs ((config.site.getD {}).logo.getD "") = false)) ∧
    ((generate_site fs config out).err.isSome = true →
      (generate_site fs config out).events =
        [FsEvent.mkdirAll (out ++ "/" ++ resolveSlug config),
         FsEvent.mkdirOne (out ++ "/" ++ resolveSlug config ++ "/assets")] ∧
      (∀ p cont, ¬ FsEvent.writeFile p cont ∈ (generate_site fs config out).events) ∧
      (generate_site fs config out).result = none) ∧
    (truthy (config.site.getD {}).logo = false →
      (generate_site fs config out).err = none ∧
      (copy_logo fs (config.site.getD {}).logo (out ++ "/" ++ resolveSlug config)).2 =
        Except.ok none) := by
  by_cases hl : truthy (config.site.getD {}).logo = true
  · by_cases hf : fs ((config.site.getD {}).logo.getD "") = true
    · simp [generate_site, copy_logo, hl, hf]
    · simp [generate_site, copy_logo, hl, hf]
  · simp [generate_site, copy_logo, hl]

/-- Witness for C8: a missing logo file aborts with only the directory
events, and a logo-less configuration runs without error. -/
theorem C8_witness :
    (generate_site (fun _ => false) cfgC8 "sites").events =
      [FsEvent.mkdirAll ("sites" ++ "/" ++ resolveSlug cfgC8),
       FsEvent.mkdirOne ("sites" ++ "/" ++ resolveSlug cfgC8 ++ "/assets")] ∧
    (generate_site (fun _ => false) cfgC2 "sites").err = none := by
  refine ⟨((C8_theorem (fun _ => false) cfgC8 "sites").2.1 (by decide)).1, ?_⟩
  exact ((C8_theorem (fun _ => false) cfgC2 "sites").2.2 (by decide)).1

/-- C9: generation is deterministic — two runs over the same configuration
and the same file-existence oracle produce identical results, including
byte-identical `index.html` content in the `writeFile` event; the embedded
`generate_site` consumes no clock, counter or randomness. -/
theorem C9_theorem (fs1 fs2 : String → Bool) (config : Config) (out : String)
    (h : fs1 = fs2) :
    generate_site fs1 config out = generate_site fs2 config out ∧
    documentOf config (some "assets/logo.png") = documentOf config (some "assets/logo.png") := by
  subst h
  exact ⟨rfl, rfl⟩

/-- Witness for C9 at a concrete run. -/
theorem C9_witness :
    generate_site (fun _ => false) cfgC2 "sites" =
      generate_site (fun _ => false) cfgC2 "sites" :=
  (C9_theorem (fun _ => false) (fun _ => false) cfgC2 "sites" rfl).1

/-- C10: with `"headline"` present but empty, the hero renders a literal
`<h1></h1>` (no fallback); with the key absent, the hero is exactly the
hero built from the headline replaced by the site tagline (then site
name) fallback. -/
theorem C10_theorem (d : HeroData) (site : SiteData) (logo : Option String) :
    (d.headline = some "" → hasSub "<h1></h1>" (build_hero d site logo) = true) ∧
    (d.headline = none →
      build_hero d site logo =
        build_hero { d with headline := some (site.tagline.getD (site.name.getD "")) }
          site logo) := by
  constructor
  · intro h
    simp only [build_hero, heroHeadlineRaw, h]
    rw [show escape "" = "" from rfl]
    rw [String.append_empty]
    rw [String.append_assoc
      ("\n    <header class=\"hero\" id=\"inicio\">\n        <div class=\"hero-content\">\n            " ++
        heroLogoHtml logo (site.name.getD ""))
      "\n            <h1>" "</h1>\n            <p class=\"subheadline\">"]
    rw [show ("\n            <h1>" ++ "</h1>\n            <p class=\"subheadline\">") =
      "\n            <h1></h1>\n            <p class=\"subheadline\">" from rfl]
    apply hasSub_appL
    apply hasSub_appL
    apply hasSub_appL
    apply hasSub_appL
    apply hasSub_appL
    apply hasSub_appL
    apply hasSub_appR
    decide
  · intro h
    simp only [build_hero, heroHeadlineRaw, h]
    cases site.tagline <;> cases site.name <;> rfl

/-- Witness for C10: an explicitly empty headline renders `<h1></h1>`
even though a tagline is available, and an absent headline falls back to
the tagline. -/
theorem C10_witness :
    hasSub "<h1></h1>"
      (build_hero { headline := some "" } { tagline := some "Qualidade" } none) = true ∧
    build_hero {} { tagline := some "Qualidade" } none =
      build_hero { headline := some "Qualidade" } { tagline := some "Qualidade" } none := by
  refine ⟨(C10_theorem { headline := some "" } { tagline := some "Qualidade" } none).1 rfl, ?_⟩
  exact (C10_theorem {} { tagline := some "Qualidade" } none).2 rfl

end GenSite
